import Mathlib

/-!
# Verification of `indivo/lib/rdf.py` (`PatientGraph`)

A shallow embedding of the RDF graph builder in `indivo/lib/rdf.py`.

Modelling conventions:
* An RDF term (`rdflib` `BNode`, `URIRef`, `Literal`) is a `Node`; the Python
  value `None`, which the source sometimes passes where a term is expected,
  is the extra constructor `Node.null`.
* The graph is the list of statements in the order they were added
  (the spec calls it an unordered multiset; a list refines that).
* `BNode()` is modelled by a counter threaded through the builder state:
  the `k`-th blank node allocated is `Node.bnode k`.
* Field values read off domain records are strings; Python truthiness of a
  string is `≠ ""`, of a term `truthy` below.
* Python exceptions are modelled by `Except PyErr`; a method that can raise
  returns the state reached at the moment of the raise, so that partial
  mutation is observable.
-/

/-- An RDF term, or Python `None` in term position. -/
inductive Node where
  | bnode (id : Nat)
  | uriref (uri : String)
  | literal (val : String)
  | null
deriving DecidableEq, Repr

/-- One RDF statement (subject, predicate, object). -/
structure Stmt where
  s : Node
  p : Node
  o : Node
deriving DecidableEq, Repr

/-- Python exceptions raised by the module. -/
inductive PyErr where
  | typeError
  | nameError
  | attributeError
  | valueError
deriving DecidableEq, Repr

/-- Python truthiness of an RDF term: `None` is falsy, a `URIRef` or
`Literal` is falsy iff its string is empty, a `BNode` (whose generated id is
never empty) is truthy. -/
def truthy : Node → Bool
  | .null => false
  | .uriref u => u ≠ ""
  | .literal v => v ≠ ""
  | .bnode _ => true

/-- Coerce an optional node to the term actually passed in Python
(`None` becomes `Node.null`). -/
def toNode : Option Node → Node
  | none => .null
  | some n => n

/-! ## Namespaces and URI constants (source lines 10-26) -/

/-- `SP = Namespace("http://smartplatforms.org/terms#")`; `SP x` is `SP[x]`. -/
def SP (x : String) : Node := .uriref ("http://smartplatforms.org/terms#" ++ x)

/-- `SPCODE = Namespace("http://smartplatforms.org/terms/codes/")`. -/
def SPCODE (x : String) : Node := .uriref ("http://smartplatforms.org/terms/codes/" ++ x)

/-- `DC = Namespace("http://purl.org/dc/elements/1.1/")`. -/
def DC (x : String) : Node := .uriref ("http://purl.org/dc/elements/1.1/" ++ x)

/-- `DCTERMS = Namespace("http://purl.org/dc/terms/")`. -/
def DCTERMS (x : String) : Node := .uriref ("http://purl.org/dc/terms/" ++ x)

/-- `FOAF = Namespace("http://xmlns.com/foaf/0.1/")`. -/
def FOAF (x : String) : Node := .uriref ("http://xmlns.com/foaf/0.1/" ++ x)

/-- `RDFS = Namespace("http://www.w3.org/2000/01/rdf-schema#")`. -/
def RDFS (x : String) : Node := .uriref ("http://www.w3.org/2000/01/rdf-schema#" ++ x)

/-- `VCARD = Namespace("http://www.w3.org/2006/vcard/ns#")`. -/
def VCARD (x : String) : Node := .uriref ("http://www.w3.org/2006/vcard/ns#" ++ x)

/-- `RDF.type` from `rdflib`. -/
def RDFtype : Node := .uriref "http://www.w3.org/1999/02/22-rdf-syntax-ns#type"

/-- `RDF.value` from `rdflib`. -/
def RDFvalue : Node := .uriref "http://www.w3.org/1999/02/22-rdf-syntax-ns#value"

/-- `RXN_URI % s` (source line 12; `%s` substitution is string append). -/
def RXN_URI (s : String) : String := "http://purl.bioontology.org/ontology/RXNORM/" ++ s

/-- `NUI_URI % s` (source line 13). -/
def NUI_URI (s : String) : String := "http://purl.bioontology.org/ontology/NDFRT/" ++ s

/-- `UNII_URI % s` (source line 14). -/
def UNII_URI (s : String) : String := "http://fda.gov/UNII/" ++ s

/-- `SNOMED_URI % s` (source line 15). -/
def SNOMED_URI (s : String) : String := "http://purl.bioontology.org/ontology/SNOMEDCT/" ++ s

/-- `LOINC_URI % s` (source line 16). -/
def LOINC_URI (s : String) : String := "http://purl.bioontology.org/ontology/LNC/" ++ s

/-- `MED_PROV_URI % s` (source line 17). -/
def MED_PROV_URI (s : String) : String :=
  "http://smartplatforms.org/terms/codes/MedicationProvenance#" ++ s

/-! ## Builder state -/

/-- The state of a `PatientGraph` instance: the statement list `g`, the blank
node counter `ctr`, the patient anchor node, the stored `record`, and the
`pid` attribute. `__init__` never assigns `self.pid`, which is modelled by
`pid = none`; an attribute read of `self.pid` when `pid = none` is Python's
`AttributeError`. -/
structure PG where
  g : List Stmt
  ctr : Nat
  patient : Node
  record : String
  pid : Option String
deriving Repr

/-- `self.g.add(t)`: append a statement. -/
def PG.add (st : PG) (t : Stmt) : PG := { st with g := st.g ++ [t] }

/-- `BNode()`: allocate a fresh blank node. -/
def PG.newBNode (st : PG) : Node × PG := (.bnode st.ctr, { st with ctr := st.ctr + 1 })

/-- The recurring call-site pattern `x = builder(...); if x: g.add(f(x))`:
given the (result, state) pair of a composite builder, attach the edge built
from the result if and only if the result is not `None`. -/
def PG.attachOpt (r : Option Node × PG) (f : Node → Stmt) : PG :=
  match r.1 with
  | some a => r.2.add (f a)
  | none => r.2

/-- `PatientGraph.__init__(record)` (source lines 32-50): stores the record,
creates the graph (namespace binding is cosmetic and adds no statements),
creates the patient anchor `BNode` and types it as `sp:MedicalRecord`. -/
def PatientGraph.init (record : String) : PG :=
  { g := [⟨.bnode 0, RDFtype, SP "MedicalRecord"⟩]
    ctr := 1
    patient := .bnode 0
    record := record
    pid := none }

/-- The output of serialization, treated as a black box of the accumulated
statements and the requested format (source line 52-53, `toRDF`). -/
structure Serialized where
  format : String
  stmts : List Stmt
deriving DecidableEq, Repr

/-- `toRDF(self, format="xml")`: serializes the graph; mutates nothing. -/
def toRDF (st : PG) (format : String := "xml") : Serialized × PG :=
  (⟨format, st.g⟩, st)

/-- `addStatement(self, s)` (source lines 226-228):
adds `s —sp:belongsTo→ patient`. -/
def addStatement (st : PG) (s : Node) : PG :=
  st.add ⟨s, SP "belongsTo", st.patient⟩

/-! ## `codedValue` and `valueAndUnit` (source lines 55-83) -/

/-- `codedValue(self, codeclass, uri, title, system, identifier)`
(source lines 55-73).  Returns `None` if all five arguments are falsy;
otherwise allocates the `CodedValue` blank node and appends the eight
statements of the source, unconditionally (title, system and identifier
edges are added even when their argument is empty). -/
def codedValue (st : PG) (codeclass : Node) (uri title system identifier : String) :
    Option Node × PG :=
  if ¬ (truthy codeclass = true ∨ uri ≠ "" ∨ title ≠ "" ∨ system ≠ "" ∨ identifier ≠ "") then
    (none, st)
  else
    let cvNode := st.newBNode.1
    let st := st.newBNode.2
    let st := st.add ⟨cvNode, RDFtype, SP "CodedValue"⟩
    let st := st.add ⟨cvNode, DCTERMS "title", .literal title⟩
    let cNode := Node.uriref uri
    let st := st.add ⟨cvNode, SP "code", cNode⟩
    let st := st.add ⟨cNode, RDFtype, codeclass⟩
    let st := st.add ⟨cNode, RDFtype, SP "Code"⟩
    let st := st.add ⟨cNode, DCTERMS "title", .literal title⟩
    let st := st.add ⟨cNode, SP "system", .literal system⟩
    let st := st.add ⟨cNode, DCTERMS "identifier", .literal identifier⟩
    (some cvNode, st)

/-- `valueAndUnit(self, value, units)` (source lines 75-83). Returns `None`
if both arguments are falsy; otherwise appends the type, value and unit
statements unconditionally. -/
def valueAndUnit (st : PG) (value units : String) : Option Node × PG :=
  if value = "" ∧ units = "" then (none, st)
  else
    let vNode := st.newBNode.1
    let st := st.newBNode.2
    let st := st.add ⟨vNode, RDFtype, SP "ValueAndUnit"⟩
    let st := st.add ⟨vNode, SP "value", .literal value⟩
    let st := st.add ⟨vNode, SP "unit", .literal units⟩
    (some vNode, st)

/-! ## Field groups (source lines 85-224) -/

/-- A domain record as seen by the field-group builders: `attr n` models
`getattr(obj, n)` (string-valued fields, Python falsy = `""`), and
`typeDisplay pfx` models the Django-generated
`getattr(obj, 'get_%s_type_display' % prefix)()` call in `telephone`. -/
structure Obj where
  attr : String → String
  typeDisplay : String → String

/-- Python `x or y` on string field values. -/
def pyOr (x y : String) : String := if x ≠ "" then x else y

/-- `_obj_fields_by_name(self, obj, prefix, suffixes)` (source lines
208-224): builds the suffix→value dictionary and returns `None` when
`reduce(or, values)` is falsy, i.e. when every value is empty.  `reduce`
without an initializer raises `TypeError` on an empty sequence, hence the
`Except` (all in-module call sites pass a non-empty literal suffix list). -/
def obj_fields_by_name (obj : Obj) (pfx : String) (suffixes : List String) :
    Except PyErr (Option (List (String × String))) :=
  let ret := suffixes.map (fun s => (s, obj.attr (pfx ++ "_" ++ s)))
  match ret.map Prod.snd with
  | [] => .error .typeError
  | v :: vs => if vs.foldl pyOr v = "" then .ok none else .ok (some ret)

/-- `fields[k]`: dictionary lookup.  All in-module lookups use a key that is
in the dictionary (the suffix lists are literals), so the `KeyError` case is
unreachable and yields a dummy `""`. -/
def dget (fields : List (String × String)) (k : String) : String :=
  match fields.find? (fun q => q.1 = k) with
  | some q => q.2
  | none => ""

/-- `address(self, obj, prefix)` (source lines 85-109). -/
def address (st : PG) (obj : Obj) (pfx : String) : Option Node × PG :=
  match obj_fields_by_name obj pfx ["country", "city", "postalcode", "region", "street"] with
  | .error _ => (none, st)
  | .ok none => (none, st)
  | .ok (some fields) =>
    let addrNode := st.newBNode.1
    let st := st.newBNode.2
    let st := st.add ⟨addrNode, RDFtype, VCARD "Address"⟩
    let st := if dget fields "street" ≠ "" then
        st.add ⟨addrNode, VCARD "street-address", .literal (dget fields "street")⟩ else st
    let st := if dget fields "city" ≠ "" then
        st.add ⟨addrNode, VCARD "locality", .literal (dget fields "city")⟩ else st
    let st := if dget fields "region" ≠ "" then
        st.add ⟨addrNode, VCARD "region", .literal (dget fields "region")⟩ else st
    let st := if dget fields "postalcode" ≠ "" then
        st.add ⟨addrNode, VCARD "postal-code", .literal (dget fields "postalcode")⟩ else st
    let st := if dget fields "country" ≠ "" then
        st.add ⟨addrNode, VCARD "country", .literal (dget fields "country")⟩ else st
    (some addrNode, st)

/-- `telephone(self, obj, prefix)` (source lines 111-127).  The source's
`if fields['preferred_p'] and fields['preferred_p']` is plain truthiness. -/
def telephone (st : PG) (obj : Obj) (pfx : String) : Option Node × PG :=
  match obj_fields_by_name obj pfx ["type", "number", "preferred_p"] with
  | .error _ => (none, st)
  | .ok none => (none, st)
  | .ok (some fields) =>
    let tNode := st.newBNode.1
    let st := st.newBNode.2
    let st := st.add ⟨tNode, RDFtype, VCARD "Tel"⟩
    let st := if dget fields "type" ≠ "" then
        st.add ⟨tNode, RDFtype, VCARD (obj.typeDisplay pfx)⟩ else st
    let st := if dget fields "preferred_p" ≠ "" then
        st.add ⟨tNode, RDFtype, VCARD "Pref"⟩ else st
    let st := if dget fields "number" ≠ "" then
        st.add ⟨tNode, VCARD "value", .literal (dget fields "number")⟩ else st
    (some tNode, st)

/-- `name(self, obj, prefix)` (source lines 129-147). -/
def name (st : PG) (obj : Obj) (pfx : String) : Option Node × PG :=
  match obj_fields_by_name obj pfx ["family", "given", "prefix", "suffix"] with
  | .error _ => (none, st)
  | .ok none => (none, st)
  | .ok (some fields) =>
    let nNode := st.newBNode.1
    let st := st.newBNode.2
    let st := st.add ⟨nNode, RDFtype, VCARD "Name"⟩
    let st := if dget fields "family" ≠ "" then
        st.add ⟨nNode, VCARD "family-name", .literal (dget fields "family")⟩ else st
    let st := if dget fields "given" ≠ "" then
        st.add ⟨nNode, VCARD "given-name", .literal (dget fields "given")⟩ else st
    let st := if dget fields "prefix" ≠ "" then
        st.add ⟨nNode, VCARD "honorific-prefix", .literal (dget fields "prefix")⟩ else st
    let st := if dget fields "suffix" ≠ "" then
        st.add ⟨nNode, VCARD "honorific-suffix", .literal (dget fields "suffix")⟩ else st
    (some nNode, st)

/-- `pharmacy(self, obj, prefix)` (source lines 149-165). -/
def pharmacy (st : PG) (obj : Obj) (pfx : String) : Option Node × PG :=
  match obj_fields_by_name obj pfx
      ["ncpdpid", "org", "adr_country", "adr_city", "adr_postalcode", "adr_region", "adr_street"] with
  | .error _ => (none, st)
  | .ok none => (none, st)
  | .ok (some fields) =>
    let pNode := st.newBNode.1
    let st := st.newBNode.2
    let st := st.add ⟨pNode, RDFtype, SP "Pharmacy"⟩
    let st := if dget fields "ncpdpid" ≠ "" then
        st.add ⟨pNode, SP "ncpdpId", .literal (dget fields "ncpdpid")⟩ else st
    let st := if dget fields "org" ≠ "" then
        st.add ⟨pNode, VCARD "organization-name", .literal (dget fields "org")⟩ else st
    let ra := address st obj (pfx ++ "_adr")
    let st := PG.attachOpt ra (fun a => ⟨pNode, VCARD "adr", a⟩)
    (some pNode, st)

/-- `provider(self, obj, prefix)` (source lines 167-206).  Line 176 adds the
`v:n` edge unconditionally: the argument tuple (containing the result of
`self.name(...)`, possibly `None`) is evaluated and then added with no null
check. -/
def provider (st : PG) (obj : Obj) (pfx : String) : Option Node × PG :=
  match obj_fields_by_name obj pfx
      ["dea_number", "ethnicity", "npi_number", "preferred_language", "race", "bday", "email", "gender"] with
  | .error _ => (none, st)
  | .ok none => (none, st)
  | .ok (some fields) =>
    let pNode := st.newBNode.1
    let st := st.newBNode.2
    let st := st.add ⟨pNode, RDFtype, SP "Provider"⟩
    let rn := name st obj (pfx ++ "_name")
    let st := rn.2.add ⟨pNode, VCARD "n", toNode rn.1⟩
    let st := if dget fields "dea_number" ≠ "" then
        st.add ⟨pNode, SP "deaNumber", .literal (dget fields "dea_number")⟩ else st
    let st := if dget fields "ethnicity" ≠ "" then
        st.add ⟨pNode, SP "ethnicity", .literal (dget fields "ethnicity")⟩ else st
    let st := if dget fields "npi_number" ≠ "" then
        st.add ⟨pNode, SP "npiNumber", .literal (dget fields "npi_number")⟩ else st
    let st := if dget fields "preferred_language" ≠ "" then
        st.add ⟨pNode, SP "preferredLanguage", .literal (dget fields "preferred_language")⟩ else st
    let st := if dget fields "race" ≠ "" then
        st.add ⟨pNode, SP "race", .literal (dget fields "race")⟩ else st
    let st := if dget fields "bday" ≠ "" then
        st.add ⟨pNode, VCARD "bday", .literal (dget fields "bday")⟩ else st
    let st := if dget fields "email" ≠ "" then
        st.add ⟨pNode, VCARD "email", .literal (dget fields "email")⟩ else st
    let st := if dget fields "gender" ≠ "" then
        st.add ⟨pNode, FOAF "gender", .literal (dget fields "gender")⟩ else st
    let ra := address st obj (pfx ++ "_adr")
    let st := PG.attachOpt ra (fun a => ⟨pNode, VCARD "adr", a⟩)
    let rt1 := telephone st obj (pfx ++ "_tel_1")
    let st := PG.attachOpt rt1 (fun t => ⟨pNode, VCARD "tel", t⟩)
    let rt2 := telephone st obj (pfx ++ "_tel_2")
    let st := PG.attachOpt rt2 (fun t => ⟨pNode, VCARD "tel", t⟩)
    (some pNode, st)

/-! ## Domain records and top-level builders (source lines 230-553) -/

/-- A `Medication` record (fields read by `medication`, plus `id`, read by
`addFillList` for memoization).  `uri` models `m.uri()`. -/
structure Med where
  uri : String
  id : String
  drugName_identifier : String
  drugName_title : String
  startDate : String
  instructions : String
  quantity_value : String
  quantity_unit : String
  frequency_value : String
  frequency_unit : String
  endDate : String
  provenance_identifier : String
  provenance_title : String
  provenance_system : String

/-- A `Fulfillment` record. `uriFulfillments` models
`fill.uri('fullfillments')`; `obj` carries the `pharmacy_*` / `provider_*`
attribute groups that `pharmacy(fill, 'pharmacy')` and
`provider(fill, 'provider')` read off the fill itself. -/
structure Fill where
  uriFulfillments : String
  date : String
  dispenseDaysSupply : String
  pbm : String
  quantityDispensed_value : String
  quantityDispensed_unit : String
  medication : Option Med
  obj : Obj

/-- A `Problem` record (fields read by `addProblemList`). -/
structure Problem where
  uri : String
  startDate : String
  endDate : String
  notes : String
  name_identifier : String
  name_title : String

/-- A lab record (fields read by the loop body of `addLabResults`). -/
structure Lab where
  code : String
  name : String
  scale : String
  value : String
  units : String
  low : String
  high : String
  date : String
  acc_num : String

/-- `addDemographics(self, record)` (source lines 230-243): appends the
`belongsTo` statement for a fresh blank node via `addStatement`, then its
very next line `g.add((pNode, RDF.type, SP.Demographics))` reads the
undefined local name `g` (the method body uses bare `g` and `p` instead of
`self.g` and its argument) and raises `NameError` — after the graph was
already mutated. -/
def addDemographics (st : PG) (record : String) : Except PyErr Unit × PG :=
  let pNode := st.newBNode.1
  let st := addStatement st.newBNode.2 pNode
  let _ := record
  (.error .nameError, st)

/-- `medication(self, m)` (source lines 284-314): builds a `Medication`
node without linking it to the patient.  `if not m: return` yields `none`
for a `None` argument; the side effects of each `codedValue` /
`valueAndUnit` call happen before the `g.add` consuming its result. -/
def medication (st : PG) (m : Option Med) : Option Node × PG :=
  match m with
  | none => (none, st)
  | some m =>
    let mNode := Node.uriref m.uri
    let st := st.add ⟨mNode, RDFtype, SP "Medication"⟩
    let rc := codedValue st (SPCODE "RxNorm_Semantic") (RXN_URI m.drugName_identifier)
        m.drugName_title (RXN_URI "") m.drugName_identifier
    let st := rc.2.add ⟨mNode, SP "drugName", toNode rc.1⟩
    let st := st.add ⟨mNode, SP "startDate", .literal m.startDate⟩
    let st := st.add ⟨mNode, SP "instructions", .literal m.instructions⟩
    let st := if m.quantity_value ≠ "" ∧ m.quantity_unit ≠ "" then
        let rv := valueAndUnit st m.quantity_value m.quantity_unit
        rv.2.add ⟨mNode, SP "quantity", toNode rv.1⟩
      else st
    let st := if m.frequency_value ≠ "" ∧ m.frequency_unit ≠ "" then
        let rv := valueAndUnit st m.frequency_value m.frequency_unit
        rv.2.add ⟨mNode, SP "frequency", toNode rv.1⟩
      else st
    let st := if m.endDate ≠ "" then st.add ⟨mNode, SP "endDate", .literal m.endDate⟩ else st
    let st := if m.provenance_identifier ≠ "" ∧ m.provenance_title ≠ "" ∧ m.provenance_system ≠ "" then
        let rp := codedValue st (SPCODE "MedicationProvenance")
            (MED_PROV_URI m.provenance_identifier) m.provenance_title (MED_PROV_URI "")
            m.provenance_identifier
        rp.2.add ⟨mNode, SP "provenance", toNode rp.1⟩
      else st
    (some mNode, st)

/-- `addFill(self, fill, medNode=None, med_uri_only=True)` (source lines
330-361). -/
def addFill (st : PG) (fill : Fill) (medNode : Node := .null) (med_uri_only : Bool := true) : PG :=
  let rfNode := Node.uriref fill.uriFulfillments
  let st := st.add ⟨rfNode, RDFtype, SP "Fulfillment"⟩
  let st := st.add ⟨rfNode, DCTERMS "date", .literal fill.date⟩
  let st := st.add ⟨rfNode, SP "dispenseDaysSupply", .literal fill.dispenseDaysSupply⟩
  let st := if fill.pbm ≠ "" then st.add ⟨rfNode, SP "pbm", .literal fill.pbm⟩ else st
  let rph := pharmacy st fill.obj "pharmacy"
  let st := PG.attachOpt rph (fun p => ⟨rfNode, SP "pharmacy", p⟩)
  let rpr := provider st fill.obj "provider"
  let st := PG.attachOpt rpr (fun p => ⟨rfNode, SP "provider", p⟩)
  let st := if fill.quantityDispensed_value ≠ "" ∧ fill.quantityDispensed_unit ≠ "" then
      let rv := valueAndUnit st fill.quantityDispensed_value fill.quantityDispensed_unit
      rv.2.add ⟨rfNode, SP "quantityDispensed", toNode rv.1⟩
    else st
  let st := if truthy medNode then st.add ⟨medNode, SP "fulfillment", rfNode⟩ else st
  let st := match fill.medication, med_uri_only with
    | some m, true => st.add ⟨rfNode, SP "medication", .uriref m.uri⟩
    | some _, false => st.add ⟨rfNode, SP "medication", medNode⟩
    | none, _ => st
  addStatement st rfNode

/-- `addMedList(self, meds)` (source lines 316-328).  The ORM relation
`m.fulfillments.all().iterator()` (an external collaborator per the spec) is
modelled by the explicit accessor `fulfillmentsOf`. -/
def addMedList (st : PG) (meds : List Med) (fulfillmentsOf : Med → List Fill) : PG :=
  match meds with
  | [] => st
  | _ =>
    meds.foldl (fun st m =>
      let rm := medication st (some m)
      let st := addStatement rm.2 (toNode rm.1)
      (fulfillmentsOf m).foldl (fun st fill => addFill st fill (toNode rm.1)) st) st

/-- The loop of `addFillList` (source lines 368-378), carrying the
`addedMeds` dictionary as an association list (`dict[k] = v` is modelled by
shadowing cons, `dict.get(k, None)` by first-match lookup).  A fill whose
`medication` is `None` raises `AttributeError` at `f.medication.id`. -/
def addFillList_go (st : PG) (addedMeds : List (String × Node)) :
    List Fill → Except PyErr Unit × PG
  | [] => (.ok (), st)
  | f :: fs =>
    match f.medication with
    | none => (.error .attributeError, st)
    | some med =>
      let medNode0 := toNode ((addedMeds.find? (fun q => q.1 = med.id)).map Prod.snd)
      if truthy medNode0 then
        addFillList_go (addFill st f medNode0 false) addedMeds fs
      else
        let rm := medication st (some med)
        let mN := toNode rm.1
        let st := addStatement rm.2 mN
        addFillList_go (addFill st f mN false) ((med.id, mN) :: addedMeds) fs

/-- `addFillList(self, fills)` (source lines 363-378). -/
def addFillList (st : PG) (fills : List Fill) : Except PyErr Unit × PG :=
  match fills with
  | [] => (.ok (), st)
  | _ => addFillList_go st [] fills

/-- `addProblemList(self, problems)` (source lines 380-398). -/
def addProblemList (st : PG) (problems : List Problem) : PG :=
  problems.foldl (fun st prob =>
    let pnode := Node.uriref prob.uri
    let st := st.add ⟨pnode, RDFtype, SP "Problem"⟩
    let st := st.add ⟨pnode, SP "startDate", .literal prob.startDate⟩
    let st := if prob.endDate ≠ "" then st.add ⟨pnode, SP "endDate", .literal prob.endDate⟩ else st
    let st := if prob.notes ≠ "" then st.add ⟨pnode, SP "notes", .literal prob.notes⟩ else st
    let rc := codedValue st (SPCODE "SNOMED") (SNOMED_URI prob.name_identifier)
        prob.name_title (SNOMED_URI "") prob.name_identifier
    let st := rc.2.add ⟨pnode, SP "problemName", toNode rc.1⟩
    addStatement st pnode) st

/-- `addVitalSigns(self)` (source lines 400-443): its first expression
`self.pid in VitalSigns.vitals` reads `self.pid`, an attribute `__init__`
never assigns, raising `AttributeError`; were `pid` assigned, the name
`VitalSigns` is defined nowhere in the module and raises `NameError`.
Either way the method raises before any statement is appended. -/
def addVitalSigns (st : PG) : Except PyErr Unit × PG :=
  match st.pid with
  | none => (.error .attributeError, st)
  | some _ => (.error .nameError, st)

/-- `addImmunizations(self)` (source lines 445-474): raises exactly as
`addVitalSigns` (`self.pid`, then the undefined name `Immunizations`). -/
def addImmunizations (st : PG) : Except PyErr Unit × PG :=
  match st.pid with
  | none => (.error .attributeError, st)
  | some _ => (.error .nameError, st)

/-- `addLabResults(self)` (source lines 476-517): raises exactly as
`addVitalSigns` (`self.pid`, then the undefined name `Lab`). -/
def addLabResults (st : PG) : Except PyErr Unit × PG :=
  match st.pid with
  | none => (.error .attributeError, st)
  | some _ => (.error .nameError, st)

/-- The per-record body of the `addLabResults` loop (source lines 483-517):
what `addLabResults` does to one lab record once the registry guard is
passed.  Embedded separately because the claims about scale handling are
about this body. -/
def addLabResults_lab (st : PG) (lab : Lab) : PG :=
  let lNode := st.newBNode.1
  let st := st.newBNode.2
  let st := st.add ⟨lNode, RDFtype, SP "LabResult"⟩
  let rc := codedValue st (SPCODE "LOINC") (LOINC_URI lab.code) lab.name
      (LOINC_URI "") lab.code
  let st := rc.2.add ⟨lNode, SP "labName", toNode rc.1⟩
  let st := if lab.scale = "Qn" then
      let qNode := st.newBNode.1
      let st := st.newBNode.2
      let st := st.add ⟨qNode, RDFtype, SP "QuantitativeResult"⟩
      let rv := valueAndUnit st lab.value lab.units
      let st := rv.2.add ⟨qNode, SP "valueAndUnit", toNode rv.1⟩
      let rNode := st.newBNode.1
      let st := st.newBNode.2
      let st := st.add ⟨rNode, RDFtype, SP "ValueRange"⟩
      let rlo := valueAndUnit st lab.low lab.units
      let st := rlo.2.add ⟨rNode, SP "minimum", toNode rlo.1⟩
      let rhi := valueAndUnit st lab.high lab.units
      let st := rhi.2.add ⟨rNode, SP "maximum", toNode rhi.1⟩
      let st := st.add ⟨qNode, SP "normalRange", rNode⟩
      st.add ⟨lNode, SP "quantitativeResult", qNode⟩
    else st
  let st := if lab.scale = "Ord" then
      let qNode := st.newBNode.1
      let st := st.newBNode.2
      let st := st.add ⟨qNode, RDFtype, SP "NarrativeResult"⟩
      let st := st.add ⟨qNode, SP "value", .literal lab.value⟩
      st.add ⟨lNode, SP "narrativeResult", qNode⟩
    else st
  let aNode := st.newBNode.1
  let st := st.newBNode.2
  let st := st.add ⟨aNode, RDFtype, SP "Attribution"⟩
  let st := st.add ⟨aNode, SP "startDate", .literal lab.date⟩
  let st := st.add ⟨lNode, SP "specimenCollected", aNode⟩
  let st := st.add ⟨lNode, SP "externalID", .literal lab.acc_num⟩
  addStatement st lNode

/-- The first hard-coded allergy of `addAllergies` (source lines 528-541):
the sulfonamide drug allergy, built for every record whose `pid % 100` is
not below 85. -/
def addAllergies_drugBlock (st : PG) : PG :=
  let aNode := st.newBNode.1
  let st := st.newBNode.2
  let st := st.add ⟨aNode, RDFtype, SP "Allergy"⟩
  let rc := codedValue st (SPCODE "AllergySeverity") (SNOMED_URI "255604002")
      "mild" (SNOMED_URI "") "255604002"
  let st := rc.2.add ⟨aNode, SP "severity", toNode rc.1⟩
  let rc := codedValue st (SPCODE "SNOMED") (SNOMED_URI "271807003")
      "skin rash" (SNOMED_URI "") "271807003"
  let st := rc.2.add ⟨aNode, SP "allergicReaction", toNode rc.1⟩
  let rc := codedValue st (SPCODE "AllergyCategory") (SNOMED_URI "416098002")
      "drug allergy" (SNOMED_URI "") "416098002"
  let st := rc.2.add ⟨aNode, SP "category", toNode rc.1⟩
  let rc := codedValue st (SPCODE "NDFRT") (NUI_URI "N0000175503")
      "sulfonamide antibacterial" (NUI_URI "") "N0000175503"
  let st := rc.2.add ⟨aNode, SP "drugClassAllergen", toNode rc.1⟩
  addStatement st aNode

/-- The second hard-coded allergy of `addAllergies` (source lines 542-552):
the peanut food allergy, built additionally when `pid` is odd. -/
def addAllergies_foodBlock (st : PG) : PG :=
  let aNode := st.newBNode.1
  let st := st.newBNode.2
  let st := st.add ⟨aNode, RDFtype, SP "Allergy"⟩
  let rc := codedValue st (SPCODE "AllergySeverity") (SNOMED_URI "24484000")
      "severe" (SNOMED_URI "") "24484000"
  let st := rc.2.add ⟨aNode, SP "severity", toNode rc.1⟩
  let rc := codedValue st (SPCODE "SNOMED") (SNOMED_URI "39579001")
      "anaphylaxis" (SNOMED_URI "") "39579001"
  let st := rc.2.add ⟨aNode, SP "allergicReaction", toNode rc.1⟩
  let rc := codedValue st (SPCODE "AllergyCategory") (SNOMED_URI "414285001")
      "food allergy" (SNOMED_URI "") "414285001"
  let st := rc.2.add ⟨aNode, SP "category", toNode rc.1⟩
  let rc := codedValue st (SPCODE "UNII") (UNII_URI "QE1QX6B99R")
      "peanut" (UNII_URI "") "QE1QX6B99R"
  let st := rc.2.add ⟨aNode, SP "foodAllergen", toNode rc.1⟩
  addStatement st aNode

/-- `addAllergies(self)` (source lines 519-553): `int(self.pid) % 100`
reads the never-assigned `self.pid` and raises `AttributeError`.  The rest
of the body (reachable only with a `pid`) is embedded for completeness:
`int(pid)` is modelled by `String.toNat?` (record ids are decimal strings),
raising `ValueError` on a non-numeric pid. -/
def addAllergies (st : PG) : Except PyErr Unit × PG :=
  match st.pid with
  | none => (.error .attributeError, st)
  | some pid =>
    match pid.toNat? with
    | none => (.error .valueError, st)
    | some n =>
      if n % 100 < 85 then
        let aExcept := st.newBNode.1
        let st := st.newBNode.2
        let st := st.add ⟨aExcept, RDFtype, SP "AllergyExclusion"⟩
        let rc := codedValue st (SPCODE "AllergyExclusion") (SNOMED_URI "160244002")
            "no known allergies" (SNOMED_URI "") "160244002"
        let st := rc.2.add ⟨aExcept, SP "allergyExclusionName", toNode rc.1⟩
        (.ok (), addStatement st aExcept)
      else
        let st := addAllergies_drugBlock st
        if n % 2 ≠ 0 then
          (.ok (), addAllergies_foodBlock st)
        else
          (.ok (), st)

/-! ## Concrete fixtures used by the witness theorems -/

/-- A record all of whose string attributes are empty. -/
def emptyObj : Obj := ⟨fun _ => "", fun _ => ""⟩

/-- A concrete medication record. -/
def wMed : Med :=
  ⟨"http://indivo.org/records/r/medications/1", "1", "12345", "Aspirin", "2010-01-01",
   "take daily", "", "", "", "", "", "", "", ""⟩

/-- A concrete fulfillment of `wMed`. -/
def wFill1 : Fill :=
  ⟨"http://indivo.org/records/r/fulfillments/1", "2010-01-05", "30", "", "30", "tablets",
   some wMed, emptyObj⟩

/-- A second concrete fulfillment of `wMed`. -/
def wFill2 : Fill :=
  ⟨"http://indivo.org/records/r/fulfillments/2", "2010-02-05", "30", "", "", "",
   some wMed, emptyObj⟩

/-- A concrete quantitative lab record. -/
def wLabQn : Lab := ⟨"2951-2", "Sodium", "Qn", "140", "mmol/L", "135", "145", "2010-01-01", "AC1"⟩

/-- A concrete ordinal lab record. -/
def wLabOrd : Lab := ⟨"5778-6", "Color", "Ord", "YELLOW", "", "", "", "2010-01-01", "AC2"⟩

/-- A concrete lab record with an unrecognized scale. -/
def wLabNom : Lab := ⟨"600-7", "Culture", "Nom", "neg", "", "", "", "2010-01-01", "AC3"⟩

/-- A quantitative lab record with empty value and units. -/
def wLabEmptyQn : Lab := ⟨"2951-2", "Sodium", "Qn", "", "", "", "", "2010-01-01", "AC4"⟩

/-- A concrete problem record. -/
def wProb : Problem :=
  ⟨"http://indivo.org/records/r/problems/1", "2009-05-01", "", "", "38341003", "Hypertension"⟩

/-- A record whose only non-empty provider field group member is the DEA
number; every provider name field is empty. -/
def wProvObj : Obj :=
  ⟨fun s => if s = "prov_dea_number" then "AB1234567" else "", fun _ => ""⟩

/-! ## Basic lemmas about the builder state -/

theorem PG.add_g (st : PG) (t : Stmt) : (st.add t).g = st.g ++ [t] := rfl

theorem PG.add_ctr (st : PG) (t : Stmt) : (st.add t).ctr = st.ctr := rfl

theorem PG.add_patient (st : PG) (t : Stmt) : (st.add t).patient = st.patient := rfl

theorem PG.add_pid (st : PG) (t : Stmt) : (st.add t).pid = st.pid := rfl

theorem PG.ite_g (c : Prop) [Decidable c] (a b : PG) :
    (if c then a else b).g = if c then a.g else b.g := by
  split <;> rfl

theorem PG.ite_ctr (c : Prop) [Decidable c] (a b : PG) :
    (if c then a else b).ctr = if c then a.ctr else b.ctr := by
  split <;> rfl

theorem ite_append_left {α : Type} (c : Prop) [Decidable c] (x : List α) (l₁ l₂ : List α) :
    (if c then x ++ l₁ else x ++ l₂) = x ++ (if c then l₁ else l₂) := by
  split <;> rfl

theorem mem_ite_list {α : Type} {t : α} {c : Prop} [Decidable c] {l₁ l₂ : List α} :
    t ∈ (if c then l₁ else l₂) → t ∈ l₁ ∨ t ∈ l₂ := by
  split <;> intro h
  · exact Or.inl h
  · exact Or.inr h

/-- Two distinct namespaces never yield the same term: if two strings differ
within the first `n` characters, no pair of extensions of them is equal. -/
theorem append_ne_append_of_take_ne (n : Nat) (a b : String)
    (ha : n ≤ a.length) (hb : n ≤ b.length)
    (hne : a.data.take n ≠ b.data.take n) : ∀ x y : String, a ++ x ≠ b ++ y := by
  intro x y h
  apply hne
  have hd : a.data ++ x.data = b.data ++ y.data := by
    have := congrArg String.data h
    simpa [String.data_append] using this
  have h1 : (a.data ++ x.data).take n = a.data.take n :=
    List.take_append_of_le_length ha
  have h2 : (b.data ++ y.data).take n = b.data.take n :=
    List.take_append_of_le_length hb
  rw [← h1, ← h2, hd]

set_option maxRecDepth 4000 in
/-- The vcard namespace is disjoint from the `sp` namespace. -/
theorem vcard_ne_sp (x y : String) : VCARD x ≠ SP y := by
  simp only [VCARD, SP, Node.uriref.injEq, ne_eq]
  exact append_ne_append_of_take_ne 8 _ _ (by decide) (by decide) (by decide) x y

/-! ## `_obj_fields_by_name`: the null-if-all-empty characterization -/

theorem foldl_pyOr_eq_empty (vs : List String) (v : String) :
    vs.foldl pyOr v = "" ↔ (v = "" ∧ ∀ x ∈ vs, x = "") := by
  induction vs generalizing v with
  | nil => simp
  | cons x xs ih =>
    simp only [List.foldl_cons, ih, List.mem_cons]
    by_cases hv : v = ""
    · subst hv
      have hp : pyOr "" x = x := by simp [pyOr]
      rw [hp]
      constructor
      · rintro ⟨h1, h2⟩
        exact ⟨rfl, fun z hz => hz.elim (fun hzx => hzx ▸ h1) (h2 z)⟩
      · rintro ⟨-, h⟩
        exact ⟨h x (Or.inl rfl), fun z hz => h z (Or.inr hz)⟩
    · have hp : pyOr v x = v := by simp [pyOr, hv]
      rw [hp]
      constructor
      · rintro ⟨h1, -⟩
        exact absurd h1 hv
      · rintro ⟨h1, -⟩
        exact absurd h1 hv

/-- `obj_fields_by_name` on a cons, as an explicit conditional. -/
theorem obj_fields_by_name_cons (obj : Obj) (pfx : String) (s0 : String) (rest : List String) :
    obj_fields_by_name obj pfx (s0 :: rest) =
      if (rest.map (fun s => obj.attr (pfx ++ "_" ++ s))).foldl pyOr
          (obj.attr (pfx ++ "_" ++ s0)) = ""
      then .ok none
      else .ok (some ((s0 :: rest).map (fun s => (s, obj.attr (pfx ++ "_" ++ s))))) := by
  simp only [obj_fields_by_name, List.map_cons, List.map_map]
  rfl

/-- `obj_fields_by_name` on a non-empty suffix list: `None` exactly when all
the addressed fields are empty, and the complete dictionary otherwise. -/
theorem obj_fields_by_name_spec (obj : Obj) (pfx : String) (suffixes : List String)
    (hne : suffixes ≠ []) :
    (obj_fields_by_name obj pfx suffixes = .ok none ↔
      ∀ s ∈ suffixes, obj.attr (pfx ++ "_" ++ s) = "") ∧
    ((¬ ∀ s ∈ suffixes, obj.attr (pfx ++ "_" ++ s) = "") →
      obj_fields_by_name obj pfx suffixes =
        .ok (some (suffixes.map (fun s => (s, obj.attr (pfx ++ "_" ++ s)))))) := by
  match suffixes, hne with
  | s0 :: rest, _ =>
    rw [obj_fields_by_name_cons]
    have hiff : ((rest.map (fun s => obj.attr (pfx ++ "_" ++ s))).foldl pyOr
        (obj.attr (pfx ++ "_" ++ s0)) = "") ↔
        ∀ s ∈ s0 :: rest, obj.attr (pfx ++ "_" ++ s) = "" := by
      rw [foldl_pyOr_eq_empty]
      constructor
      · rintro ⟨h1, h2⟩ s hs
        rcases List.mem_cons.mp hs with rfl | hs'
        · exact h1
        · exact h2 _ (List.mem_map_of_mem _ hs')
      · intro h
        refine ⟨h s0 (List.mem_cons_self _ _), ?_⟩
        intro x hx
        rcases List.mem_map.mp hx with ⟨s, hs, rfl⟩
        exact h s (List.mem_cons_of_mem _ hs)
    constructor
    · rw [← hiff]
      by_cases hc : (rest.map (fun s => obj.attr (pfx ++ "_" ++ s))).foldl pyOr
          (obj.attr (pfx ++ "_" ++ s0)) = ""
      · rw [if_pos hc]
        simp [hc]
      · rw [if_neg hc]
        simp [hc]
    · intro h
      rw [← hiff] at h
      rw [if_neg h]

/-! ## Explicit forms of the small builders -/

theorem codedValue_none (st : PG) (c : Node) (u ti sy idf : String)
    (h : ¬ (truthy c = true ∨ u ≠ "" ∨ ti ≠ "" ∨ sy ≠ "" ∨ idf ≠ "")) :
    codedValue st c u ti sy idf = (none, st) := by
  unfold codedValue
  rw [if_pos h]

theorem codedValue_eq (st : PG) (c : Node) (u ti sy idf : String)
    (h : truthy c = true ∨ u ≠ "" ∨ ti ≠ "" ∨ sy ≠ "" ∨ idf ≠ "") :
    codedValue st c u ti sy idf =
      (some (.bnode st.ctr),
       { st with ctr := st.ctr + 1,
                 g := st.g ++
                   [⟨.bnode st.ctr, RDFtype, SP "CodedValue"⟩,
                    ⟨.bnode st.ctr, DCTERMS "title", .literal ti⟩,
                    ⟨.bnode st.ctr, SP "code", .uriref u⟩,
                    ⟨.uriref u, RDFtype, c⟩,
                    ⟨.uriref u, RDFtype, SP "Code"⟩,
                    ⟨.uriref u, DCTERMS "title", .literal ti⟩,
                    ⟨.uriref u, SP "system", .literal sy⟩,
                    ⟨.uriref u, DCTERMS "identifier", .literal idf⟩] }) := by
  unfold codedValue
  rw [if_neg (not_not_intro h)]
  cases st
  simp [PG.add, PG.newBNode, List.append_assoc]

theorem valueAndUnit_none (st : PG) (v u : String) (h : v = "" ∧ u = "") :
    valueAndUnit st v u = (none, st) := by
  unfold valueAndUnit
  rw [if_pos h]

theorem valueAndUnit_eq (st : PG) (v u : String) (h : ¬ (v = "" ∧ u = "")) :
    valueAndUnit st v u =
      (some (.bnode st.ctr),
       { st with ctr := st.ctr + 1,
                 g := st.g ++
                   [⟨.bnode st.ctr, RDFtype, SP "ValueAndUnit"⟩,
                    ⟨.bnode st.ctr, SP "value", .literal v⟩,
                    ⟨.bnode st.ctr, SP "unit", .literal u⟩] }) := by
  unfold valueAndUnit
  rw [if_neg h]
  cases st
  simp [PG.add, PG.newBNode, List.append_assoc]

theorem address_none (st : PG) (obj : Obj) (pfx : String)
    (h : obj_fields_by_name obj pfx ["country", "city", "postalcode", "region", "street"] = .ok none) :
    address st obj pfx = (none, st) := by
  unfold address
  rw [h]

theorem address_some (st : PG) (obj : Obj) (pfx : String) (fields : List (String × String))
    (h : obj_fields_by_name obj pfx ["country", "city", "postalcode", "region", "street"] =
      .ok (some fields)) :
    address st obj pfx =
      (some (.bnode st.ctr),
       { st with ctr := st.ctr + 1,
                 g := st.g ++
                   ([⟨.bnode st.ctr, RDFtype, VCARD "Address"⟩] ++
                    (if dget fields "street" ≠ "" then
                      [⟨.bnode st.ctr, VCARD "street-address", .literal (dget fields "street")⟩]
                     else []) ++
                    (if dget fields "city" ≠ "" then
                      [⟨.bnode st.ctr, VCARD "locality", .literal (dget fields "city")⟩]
                     else []) ++
                    (if dget fields "region" ≠ "" then
                      [⟨.bnode st.ctr, VCARD "region", .literal (dget fields "region")⟩]
                     else []) ++
                    (if dget fields "postalcode" ≠ "" then
                      [⟨.bnode st.ctr, VCARD "postal-code", .literal (dget fields "postalcode")⟩]
                     else []) ++
                    (if dget fields "country" ≠ "" then
                      [⟨.bnode st.ctr, VCARD "country", .literal (dget fields "country")⟩]
                     else [])) }) := by
  unfold address
  rw [h]
  cases st
  split_ifs <;> simp_all [PG.add, PG.newBNode, List.append_assoc]

theorem telephone_none (st : PG) (obj : Obj) (pfx : String)
    (h : obj_fields_by_name obj pfx ["type", "number", "preferred_p"] = .ok none) :
    telephone st obj pfx = (none, st) := by
  unfold telephone
  rw [h]

theorem telephone_some (st : PG) (obj : Obj) (pfx : String) (fields : List (String × String))
    (h : obj_fields_by_name obj pfx ["type", "number", "preferred_p"] = .ok (some fields)) :
    telephone st obj pfx =
      (some (.bnode st.ctr),
       { st with ctr := st.ctr + 1,
                 g := st.g ++
                   ([⟨.bnode st.ctr, RDFtype, VCARD "Tel"⟩] ++
                    (if dget fields "type" ≠ "" then
                      [⟨.bnode st.ctr, RDFtype, VCARD (obj.typeDisplay pfx)⟩]
                     else []) ++
                    (if dget fields "preferred_p" ≠ "" then
                      [⟨.bnode st.ctr, RDFtype, VCARD "Pref"⟩]
                     else []) ++
                    (if dget fields "number" ≠ "" then
                      [⟨.bnode st.ctr, VCARD "value", .literal (dget fields "number")⟩]
                     else [])) }) := by
  unfold telephone
  rw [h]
  cases st
  split_ifs <;> simp_all [PG.add, PG.newBNode, List.append_assoc]

theorem name_none (st : PG) (obj : Obj) (pfx : String)
    (h : obj_fields_by_name obj pfx ["family", "given", "prefix", "suffix"] = .ok none) :
    name st obj pfx = (none, st) := by
  unfold name
  rw [h]

theorem name_some (st : PG) (obj : Obj) (pfx : String) (fields : List (String × String))
    (h : obj_fields_by_name obj pfx ["family", "given", "prefix", "suffix"] = .ok (some fields)) :
    name st obj pfx =
      (some (.bnode st.ctr),
       { st with ctr := st.ctr + 1,
                 g := st.g ++
                   ([⟨.bnode st.ctr, RDFtype, VCARD "Name"⟩] ++
                    (if dget fields "family" ≠ "" then
                      [⟨.bnode st.ctr, VCARD "family-name", .literal (dget fields "family")⟩]
                     else []) ++
                    (if dget fields "given" ≠ "" then
                      [⟨.bnode st.ctr, VCARD "given-name", .literal (dget fields "given")⟩]
                     else []) ++
                    (if dget fields "prefix" ≠ "" then
                      [⟨.bnode st.ctr, VCARD "honorific-prefix", .literal (dget fields "prefix")⟩]
                     else []) ++
                    (if dget fields "suffix" ≠ "" then
                      [⟨.bnode st.ctr, VCARD "honorific-suffix", .literal (dget fields "suffix")⟩]
                     else [])) }) := by
  unfold name
  rw [h]
  cases st
  split_ifs <;> simp_all [PG.add, PG.newBNode, List.append_assoc]

set_option maxRecDepth 8000

/-! ## Typing statements: which operations type nodes with which `sp` classes -/

/-- `spTyping y t`: `t` is a statement typing its subject as `sp:y`. -/
def spTyping (y : String) (t : Stmt) : Bool := t.p == RDFtype && t.o == SP y

theorem spTyping_false_p {t : Stmt} (y : String) (h : ¬ t.p = RDFtype) :
    spTyping y t = false := by
  simp [spTyping, h]

theorem spTyping_false_o {t : Stmt} (y : String) (h : ¬ t.o = SP y) :
    spTyping y t = false := by
  simp [spTyping, h]

theorem filter_add_eq (st : PG) (t : Stmt) (y : String) (h : spTyping y t = false) :
    (st.add t).g.filter (spTyping y) = st.g.filter (spTyping y) := by
  simp [PG.add, List.filter_append, h]

theorem filter_attachOpt (y : String) (r : Option Node × PG) (f : Node → Stmt)
    (hf : ∀ a, spTyping y (f a) = false) :
    ((PG.attachOpt r f).g).filter (spTyping y) = (r.2.g).filter (spTyping y) := by
  unfold PG.attachOpt
  rcases r with ⟨_ | a, st⟩
  · rfl
  · exact filter_add_eq st (f a) y (hf a)

theorem append_eq_left {α : Type} (x y : List α) : x ++ y = x ↔ y = [] := by
  constructor
  · intro h
    have hl := congrArg List.length h
    simp only [List.length_append] at hl
    have : y.length = 0 := by omega
    exact List.eq_nil_of_length_eq_zero this
  · rintro rfl
    simp

/-- `address` types nodes only with vcard classes, never with an `sp` class. -/
theorem address_spTyping (st : PG) (obj : Obj) (pfx : String) (y : String) :
    ((address st obj pfx).2.g).filter (spTyping y) = st.g.filter (spTyping y) := by
  rcases hm : obj_fields_by_name obj pfx ["country", "city", "postalcode", "region", "street"]
    with e | o
  · unfold address
    rw [hm]
  · rcases o with _ | fields
    · rw [address_none st obj pfx hm]
    · rw [address_some st obj pfx fields hm]
      dsimp only
      rw [List.filter_append, append_eq_left, List.filter_eq_nil_iff]
      intro t ht
      simp only [List.mem_append] at ht
      rcases ht with ((((h' | h') | h') | h') | h') | h' <;>
        simp only [Bool.not_eq_true] <;>
        first
        | (rcases List.mem_singleton.mp h' with rfl
           exact spTyping_false_o y (vcard_ne_sp _ _))
        | (rcases mem_ite_list h' with h'' | h''
           · rcases List.mem_singleton.mp h'' with rfl
             exact spTyping_false_p y (by simp [VCARD, RDFtype])
           · simp at h'')

theorem filter_ite_list {α : Type} (p : α → Bool) (c : Prop) [Decidable c] (l₁ l₂ : List α) :
    (if c then l₁ else l₂).filter p = if c then l₁.filter p else l₂.filter p := by
  split <;> rfl

/-- One fixed string is never an extension of another when they differ within
the first `n` characters. -/
theorem append_ne_lit (n : Nat) (a lit : String) (ha : n ≤ a.length)
    (hne : a.data.take n ≠ lit.data.take n) : ∀ x, ¬ (a ++ x = lit) := by
  intro x h
  apply hne
  have hd : a.data ++ x.data = lit.data := by
    have := congrArg String.data h
    simpa [String.data_append] using this
  rw [← hd, List.take_append_of_le_length ha]

theorem vcard_ne_rdftype (x : String) : ¬ VCARD x = RDFtype := by
  simp only [VCARD, RDFtype, Node.uriref.injEq]
  exact append_ne_lit 19 _ _ (by decide) (by decide) x

theorem sp_ne_rdftype (x : String) : ¬ SP x = RDFtype := by
  simp only [SP, RDFtype, Node.uriref.injEq]
  exact append_ne_lit 8 _ _ (by decide) (by decide) x

theorem dcterms_ne_rdftype (x : String) : ¬ DCTERMS x = RDFtype := by
  simp only [DCTERMS, RDFtype, Node.uriref.injEq]
  exact append_ne_lit 8 _ _ (by decide) (by decide) x

theorem foaf_ne_rdftype (x : String) : ¬ FOAF x = RDFtype := by
  simp only [FOAF, RDFtype, Node.uriref.injEq]
  exact append_ne_lit 8 _ _ (by decide) (by decide) x

theorem spcode_ne_sp (x y : String) : ¬ SPCODE x = SP y := by
  simp only [SPCODE, SP, Node.uriref.injEq, ne_eq]
  exact append_ne_append_of_take_ne 32 _ _ (by decide) (by decide) (by decide) x y

/-- `telephone` types nodes only with vcard classes. -/
theorem telephone_spTyping (st : PG) (obj : Obj) (pfx : String) (y : String) :
    ((telephone st obj pfx).2.g).filter (spTyping y) = st.g.filter (spTyping y) := by
  unfold telephone
  rcases hm : obj_fields_by_name obj pfx ["type", "number", "preferred_p"] with e | o
  · rfl
  · rcases o with _ | fields
    · rfl
    · dsimp only
      simp [PG.add, PG.newBNode, PG.ite_g, filter_ite_list, List.filter_append, List.filter_cons,
        spTyping, vcard_ne_sp, vcard_ne_rdftype]

/-- `name` types nodes only with vcard classes. -/
theorem name_spTyping (st : PG) (obj : Obj) (pfx : String) (y : String) :
    ((name st obj pfx).2.g).filter (spTyping y) = st.g.filter (spTyping y) := by
  unfold name
  rcases hm : obj_fields_by_name obj pfx ["family", "given", "prefix", "suffix"] with e | o
  · rfl
  · rcases o with _ | fields
    · rfl
    · dsimp only
      simp [PG.add, PG.newBNode, PG.ite_g, filter_ite_list, List.filter_append, List.filter_cons,
        spTyping, vcard_ne_sp, vcard_ne_rdftype]

/-- `pharmacy` types nodes only as `sp:Pharmacy` or with vcard classes. -/
theorem pharmacy_spTyping (st : PG) (obj : Obj) (pfx y : String)
    (hy : ¬ SP "Pharmacy" = SP y) :
    ((pharmacy st obj pfx).2.g).filter (spTyping y) = st.g.filter (spTyping y) := by
  unfold pharmacy
  rcases hm : obj_fields_by_name obj pfx
      ["ncpdpid", "org", "adr_country", "adr_city", "adr_postalcode", "adr_region", "adr_street"]
    with e | o
  · rfl
  · rcases o with _ | fields
    · rfl
    · dsimp only
      simp [PG.add, PG.ite_g, PG.newBNode, filter_ite_list, List.filter_append,
        List.filter_cons, spTyping, filter_attachOpt, vcard_ne_sp, vcard_ne_rdftype,
        sp_ne_rdftype, hy, address_spTyping]

set_option maxHeartbeats 2000000 in
/-- `provider` types nodes only as `sp:Provider` or with vcard classes. -/
theorem provider_spTyping (st : PG) (obj : Obj) (pfx y : String)
    (hy : ¬ SP "Provider" = SP y) :
    ((provider st obj pfx).2.g).filter (spTyping y) = st.g.filter (spTyping y) := by
  unfold provider
  rcases hm : obj_fields_by_name obj pfx
      ["dea_number", "ethnicity", "npi_number", "preferred_language", "race", "bday", "email", "gender"]
    with e | o
  · rfl
  · rcases o with _ | fields
    · rfl
    · dsimp only
      simp [PG.add, PG.ite_g, PG.newBNode, filter_ite_list, List.filter_append,
        List.filter_cons, spTyping, filter_attachOpt, vcard_ne_sp, vcard_ne_rdftype,
        sp_ne_rdftype, foaf_ne_rdftype, hy, address_spTyping, telephone_spTyping,
        name_spTyping]

/-! ## Append-only: every operation leaves the existing statements as a prefix -/

theorem prefix_add (st : PG) (t : Stmt) : st.g <+: (st.add t).g :=
  ⟨[t], rfl⟩

theorem prefix_stateIte (st : PG) (c : Prop) [Decidable c] (t : Stmt) :
    st.g <+: (if c then st.add t else st).g := by
  split
  · exact prefix_add st t
  · exact List.prefix_rfl

theorem prefix_ite (st : PG) (c : Prop) [Decidable c] (a b : PG)
    (ha : st.g <+: a.g) (hb : st.g <+: b.g) : st.g <+: (if c then a else b).g := by
  split
  · exact ha
  · exact hb

theorem prefix_condCall {α : Type} (st : PG) (c : Prop) [Decidable c] (r : α × PG) (t : Stmt)
    (hr : st.g <+: r.2.g) : st.g <+: (if c then r.2.add t else st).g := by
  split
  · exact hr.trans (prefix_add _ _)
  · exact List.prefix_rfl

theorem prefix_attachOpt (st : PG) (r : Option Node × PG) (f : Node → Stmt)
    (hr : st.g <+: r.2.g) : st.g <+: (PG.attachOpt r f).g := by
  unfold PG.attachOpt
  rcases r with ⟨_ | a, st2⟩
  · exact hr
  · exact hr.trans (prefix_add _ _)

theorem codedValue_mono (st : PG) (c : Node) (u ti sy idf : String) :
    st.g <+: (codedValue st c u ti sy idf).2.g := by
  unfold codedValue
  split
  · exact List.prefix_rfl
  · dsimp only
    repeat
      first
      | exact List.prefix_rfl
      | refine List.IsPrefix.trans ?_ (prefix_add _ _)

theorem valueAndUnit_mono (st : PG) (v u : String) :
    st.g <+: (valueAndUnit st v u).2.g := by
  unfold valueAndUnit
  split
  · exact List.prefix_rfl
  · dsimp only
    repeat
      first
      | exact List.prefix_rfl
      | refine List.IsPrefix.trans ?_ (prefix_add _ _)

theorem address_mono (st : PG) (obj : Obj) (pfx : String) :
    st.g <+: (address st obj pfx).2.g := by
  unfold address
  rcases obj_fields_by_name obj pfx ["country", "city", "postalcode", "region", "street"]
    with e | o
  · exact List.prefix_rfl
  · rcases o with _ | fields
    · exact List.prefix_rfl
    · dsimp only
      repeat
        first
        | exact List.prefix_rfl
        | refine List.IsPrefix.trans ?_ (prefix_add _ _)
        | refine List.IsPrefix.trans ?_ (prefix_stateIte _ _ _)

theorem telephone_mono (st : PG) (obj : Obj) (pfx : String) :
    st.g <+: (telephone st obj pfx).2.g := by
  unfold telephone
  rcases obj_fields_by_name obj pfx ["type", "number", "preferred_p"] with e | o
  · exact List.prefix_rfl
  · rcases o with _ | fields
    · exact List.prefix_rfl
    · dsimp only
      repeat
        first
        | exact List.prefix_rfl
        | refine List.IsPrefix.trans ?_ (prefix_add _ _)
        | refine List.IsPrefix.trans ?_ (prefix_stateIte _ _ _)

theorem name_mono (st : PG) (obj : Obj) (pfx : String) :
    st.g <+: (name st obj pfx).2.g := by
  unfold name
  rcases obj_fields_by_name obj pfx ["family", "given", "prefix", "suffix"] with e | o
  · exact List.prefix_rfl
  · rcases o with _ | fields
    · exact List.prefix_rfl
    · dsimp only
      repeat
        first
        | exact List.prefix_rfl
        | refine List.IsPrefix.trans ?_ (prefix_add _ _)
        | refine List.IsPrefix.trans ?_ (prefix_stateIte _ _ _)

theorem pharmacy_mono (st : PG) (obj : Obj) (pfx : String) :
    st.g <+: (pharmacy st obj pfx).2.g := by
  unfold pharmacy
  rcases obj_fields_by_name obj pfx
      ["ncpdpid", "org", "adr_country", "adr_city", "adr_postalcode", "adr_region", "adr_street"]
    with e | o
  · exact List.prefix_rfl
  · rcases o with _ | fields
    · exact List.prefix_rfl
    · dsimp only
      refine List.IsPrefix.trans ?_ (prefix_attachOpt _ _ _ (address_mono _ _ _))
      refine List.IsPrefix.trans ?_ (prefix_stateIte _ _ _)
      refine List.IsPrefix.trans ?_ (prefix_stateIte _ _ _)
      refine List.IsPrefix.trans ?_ (prefix_add _ _)
      exact List.prefix_rfl

theorem provider_mono (st : PG) (obj : Obj) (pfx : String) :
    st.g <+: (provider st obj pfx).2.g := by
  unfold provider
  rcases obj_fields_by_name obj pfx
      ["dea_number", "ethnicity", "npi_number", "preferred_language", "race", "bday", "email", "gender"]
    with e | o
  · exact List.prefix_rfl
  · rcases o with _ | fields
    · exact List.prefix_rfl
    · dsimp only
      refine List.IsPrefix.trans ?_ (prefix_attachOpt _ _ _ (telephone_mono _ _ _))
      refine List.IsPrefix.trans ?_ (prefix_attachOpt _ _ _ (telephone_mono _ _ _))
      refine List.IsPrefix.trans ?_ (prefix_attachOpt _ _ _ (address_mono _ _ _))
      refine List.IsPrefix.trans ?_ (prefix_stateIte _ _ _)
      refine List.IsPrefix.trans ?_ (prefix_stateIte _ _ _)
      refine List.IsPrefix.trans ?_ (prefix_stateIte _ _ _)
      refine List.IsPrefix.trans ?_ (prefix_stateIte _ _ _)
      refine List.IsPrefix.trans ?_ (prefix_stateIte _ _ _)
      refine List.IsPrefix.trans ?_ (prefix_stateIte _ _ _)
      refine List.IsPrefix.trans ?_ (prefix_stateIte _ _ _)
      refine List.IsPrefix.trans ?_ (prefix_stateIte _ _ _)
      refine List.IsPrefix.trans ?_ (prefix_add _ _)
      refine List.IsPrefix.trans ?_ (name_mono _ _ _)
      refine List.IsPrefix.trans ?_ (prefix_add _ _)
      exact List.prefix_rfl

theorem addStatement_mono (st : PG) (n : Node) : st.g <+: (addStatement st n).g :=
  prefix_add st _

theorem medication_mono (st : PG) (m : Option Med) :
    st.g <+: (medication st m).2.g := by
  rcases m with _ | m
  · exact List.prefix_rfl
  · unfold medication
    dsimp only
    refine List.IsPrefix.trans ?_ (prefix_condCall _ _ _ _ (codedValue_mono _ _ _ _ _ _))
    refine List.IsPrefix.trans ?_ (prefix_stateIte _ _ _)
    refine List.IsPrefix.trans ?_ (prefix_condCall _ _ _ _ (valueAndUnit_mono _ _ _))
    refine List.IsPrefix.trans ?_ (prefix_condCall _ _ _ _ (valueAndUnit_mono _ _ _))
    refine List.IsPrefix.trans ?_ (prefix_add _ _)
    refine List.IsPrefix.trans ?_ (prefix_add _ _)
    refine List.IsPrefix.trans ?_ (prefix_add _ _)
    refine List.IsPrefix.trans ?_ (codedValue_mono _ _ _ _ _ _)
    refine List.IsPrefix.trans ?_ (prefix_add _ _)
    exact List.prefix_rfl

/-! ## Typing statements of the remaining builders -/

theorem codedValue_spTyping (st : PG) (c : Node) (u ti sy idf : String) (y : String)
    (h1 : ¬ c = SP y) (h2 : ¬ SP "Code" = SP y) (h3 : ¬ SP "CodedValue" = SP y) :
    ((codedValue st c u ti sy idf).2.g).filter (spTyping y) = st.g.filter (spTyping y) := by
  by_cases h : truthy c = true ∨ u ≠ "" ∨ ti ≠ "" ∨ sy ≠ "" ∨ idf ≠ ""
  · rw [codedValue_eq st c u ti sy idf h]
    dsimp only
    simp [List.filter_append, List.filter_cons, spTyping, h1, h2, h3, sp_ne_rdftype,
      dcterms_ne_rdftype]
  · rw [codedValue_none st c u ti sy idf h]

theorem valueAndUnit_spTyping (st : PG) (v u : String) (y : String)
    (h1 : ¬ SP "ValueAndUnit" = SP y) :
    ((valueAndUnit st v u).2.g).filter (spTyping y) = st.g.filter (spTyping y) := by
  by_cases h : v = "" ∧ u = ""
  · rw [valueAndUnit_none st v u h]
  · rw [valueAndUnit_eq st v u h]
    dsimp only
    simp [List.filter_append, List.filter_cons, spTyping, h1, sp_ne_rdftype]

theorem addStatement_spTyping (st : PG) (n : Node) (y : String) :
    ((addStatement st n).g).filter (spTyping y) = st.g.filter (spTyping y) :=
  filter_add_eq st _ y (by simp [spTyping, sp_ne_rdftype])

/-- `medication` on a non-`None` record appends exactly one
`rdf:type sp:Medication` statement, whose subject is the medication's URI
node. -/
theorem medication_medTyping (st : PG) (m : Med) :
    ((medication st (some m)).2.g).filter (spTyping "Medication") =
      st.g.filter (spTyping "Medication") ++
        [⟨.uriref m.uri, RDFtype, SP "Medication"⟩] := by
  have hcv : ∀ (st' : PG) (x u ti sy idf : String),
      ((codedValue st' (SPCODE x) u ti sy idf).2.g).filter (spTyping "Medication") =
        st'.g.filter (spTyping "Medication") :=
    fun st' x u ti sy idf =>
      codedValue_spTyping st' (SPCODE x) u ti sy idf "Medication"
        (spcode_ne_sp _ _) (by simp [SP]) (by simp [SP])
  have hvau : ∀ (st' : PG) (v u : String),
      ((valueAndUnit st' v u).2.g).filter (spTyping "Medication") =
        st'.g.filter (spTyping "Medication") :=
    fun st' v u => valueAndUnit_spTyping st' v u "Medication" (by simp [SP])
  unfold medication
  dsimp only
  simp [PG.add, PG.ite_g, filter_ite_list, List.filter_append, List.filter_cons,
    spTyping, hcv, hvau, sp_ne_rdftype]

/-- `medication` appends no `rdf:type sp:Fulfillment` statement. -/
theorem medication_fulTyping (st : PG) (m : Med) :
    ((medication st (some m)).2.g).filter (spTyping "Fulfillment") =
      st.g.filter (spTyping "Fulfillment") := by
  have hcv : ∀ (st' : PG) (x u ti sy idf : String),
      ((codedValue st' (SPCODE x) u ti sy idf).2.g).filter (spTyping "Fulfillment") =
        st'.g.filter (spTyping "Fulfillment") :=
    fun st' x u ti sy idf =>
      codedValue_spTyping st' (SPCODE x) u ti sy idf "Fulfillment"
        (spcode_ne_sp _ _) (by simp [SP]) (by simp [SP])
  have hvau : ∀ (st' : PG) (v u : String),
      ((valueAndUnit st' v u).2.g).filter (spTyping "Fulfillment") =
        st'.g.filter (spTyping "Fulfillment") :=
    fun st' v u => valueAndUnit_spTyping st' v u "Fulfillment" (by simp [SP])
  have hne : ¬ SP "Medication" = SP "Fulfillment" := by simp [SP]
  unfold medication
  dsimp only
  simp [PG.add, PG.ite_g, filter_ite_list, List.filter_append, List.filter_cons,
    spTyping, hcv, hvau, sp_ne_rdftype, hne]

/-- `addFill` appends exactly one `rdf:type sp:Fulfillment` statement, whose
subject is the fill's URI node. -/
theorem addFill_fulTyping (st : PG) (fill : Fill) (mn : Node) (muo : Bool) :
    ((addFill st fill mn muo).g).filter (spTyping "Fulfillment") =
      st.g.filter (spTyping "Fulfillment") ++
        [⟨.uriref fill.uriFulfillments, RDFtype, SP "Fulfillment"⟩] := by
  have hvau : ∀ (st' : PG) (v u : String),
      ((valueAndUnit st' v u).2.g).filter (spTyping "Fulfillment") =
        st'.g.filter (spTyping "Fulfillment") :=
    fun st' v u => valueAndUnit_spTyping st' v u "Fulfillment" (by simp [SP])
  have hph : ∀ (st' : PG) (obj : Obj) (p : String),
      ((pharmacy st' obj p).2.g).filter (spTyping "Fulfillment") =
        st'.g.filter (spTyping "Fulfillment") :=
    fun st' obj p => pharmacy_spTyping st' obj p "Fulfillment" (by simp [SP])
  have hpr : ∀ (st' : PG) (obj : Obj) (p : String),
      ((provider st' obj p).2.g).filter (spTyping "Fulfillment") =
        st'.g.filter (spTyping "Fulfillment") :=
    fun st' obj p => provider_spTyping st' obj p "Fulfillment" (by simp [SP])
  unfold addFill
  dsimp only
  split
  all_goals simp [PG.add, PG.ite_g, filter_ite_list, List.filter_append, List.filter_cons,
    spTyping, filter_attachOpt, hvau, hph, hpr, addStatement, sp_ne_rdftype,
    dcterms_ne_rdftype]

/-- `addFill` appends no `rdf:type sp:Medication` statement. -/
theorem addFill_medTyping (st : PG) (fill : Fill) (mn : Node) (muo : Bool) :
    ((addFill st fill mn muo).g).filter (spTyping "Medication") =
      st.g.filter (spTyping "Medication") := by
  have hvau : ∀ (st' : PG) (v u : String),
      ((valueAndUnit st' v u).2.g).filter (spTyping "Medication") =
        st'.g.filter (spTyping "Medication") :=
    fun st' v u => valueAndUnit_spTyping st' v u "Medication" (by simp [SP])
  have hph : ∀ (st' : PG) (obj : Obj) (p : String),
      ((pharmacy st' obj p).2.g).filter (spTyping "Medication") =
        st'.g.filter (spTyping "Medication") :=
    fun st' obj p => pharmacy_spTyping st' obj p "Medication" (by simp [SP])
  have hpr : ∀ (st' : PG) (obj : Obj) (p : String),
      ((provider st' obj p).2.g).filter (spTyping "Medication") =
        st'.g.filter (spTyping "Medication") :=
    fun st' obj p => provider_spTyping st' obj p "Medication" (by simp [SP])
  have hne : ¬ SP "Fulfillment" = SP "Medication" := by simp [SP]
  unfold addFill
  dsimp only
  split
  all_goals simp [PG.add, PG.ite_g, filter_ite_list, List.filter_append, List.filter_cons,
    spTyping, filter_attachOpt, hvau, hph, hpr, addStatement, sp_ne_rdftype,
    dcterms_ne_rdftype, hne]

theorem medication_some_fst (st : PG) (m : Med) :
    (medication st (some m)).1 = some (.uriref m.uri) := rfl

theorem addFill_mono (st : PG) (fill : Fill) (mn : Node) (muo : Bool) :
    st.g <+: (addFill st fill mn muo).g := by
  unfold addFill
  dsimp only
  split
  all_goals refine List.IsPrefix.trans ?_ (addStatement_mono _ _)
  all_goals first
    | refine List.IsPrefix.trans ?_ (prefix_add _ _)
    | skip
  all_goals refine List.IsPrefix.trans ?_ (prefix_stateIte _ _ _)
  all_goals refine List.IsPrefix.trans ?_ (prefix_condCall _ _ _ _ (valueAndUnit_mono _ _ _))
  all_goals refine List.IsPrefix.trans ?_ (prefix_attachOpt _ _ _ (provider_mono _ _ _))
  all_goals refine List.IsPrefix.trans ?_ (prefix_attachOpt _ _ _ (pharmacy_mono _ _ _))
  all_goals refine List.IsPrefix.trans ?_ (prefix_stateIte _ _ _)
  all_goals refine List.IsPrefix.trans ?_ (prefix_add _ _)
  all_goals refine List.IsPrefix.trans ?_ (prefix_add _ _)
  all_goals refine List.IsPrefix.trans ?_ (prefix_add _ _)
  all_goals exact List.prefix_rfl

/-- When `addFill` is called with a medication record and
`med_uri_only=False`, it links the fulfillment to the given medication node. -/
theorem addFill_mem_medlink (st : PG) (fill : Fill) (mn : Node) (m : Med)
    (hm : fill.medication = some m) :
    Stmt.mk (.uriref fill.uriFulfillments) (SP "medication") mn ∈ (addFill st fill mn false).g := by
  unfold addFill
  dsimp only
  simp [hm, addStatement, PG.add, List.mem_append]

/-- When `addFill` is passed a truthy medication node, it links the
medication node to the fulfillment. -/
theorem addFill_mem_fullink (st : PG) (fill : Fill) (mn : Node) (muo : Bool)
    (hmn : truthy mn = true) :
    Stmt.mk mn (SP "fulfillment") (.uriref fill.uriFulfillments) ∈ (addFill st fill mn muo).g := by
  unfold addFill
  dsimp only
  split
  all_goals simp [addStatement, PG.add, hmn, List.mem_append]

/-- Computation of `addFillList` on a two-fill list sharing one medication:
the first iteration misses the memo and builds the medication node, the
second hits the memo and reuses it. -/
theorem addFillList_two_eq (st : PG) (f1 f2 : Fill) (m : Med)
    (h1 : f1.medication = some m) (h2 : f2.medication = some m) (hu : m.uri ≠ "") :
    addFillList st [f1, f2] =
      (.ok (),
       addFill
         (addFill (addStatement (medication st (some m)).2 (.uriref m.uri)) f1
           (.uriref m.uri) false)
         f2 (.uriref m.uri) false) := by
  unfold addFillList
  simp only [addFillList_go, h1, h2, medication_some_fst, toNode, List.find?_nil,
    List.find?_cons, Option.map_none, Option.map_some, truthy]
  simp [truthy, hu]

/-- **C3**: for a fill list whose two fulfillments reference the same
medication record, `addFillList` succeeds and the graph gains exactly one
`rdf:type sp:Medication` statement, whose subject is the shared medication
URI node (memoized by the medication's id and reused); exactly one
`rdf:type sp:Fulfillment` statement per fill, with the two (distinct) fill
URI nodes as subjects; and each of the two fulfillments is linked to the
single shared medication node (with the reverse link from the medication to
each fulfillment as well). -/
theorem C3_addFillList_dedup (st : PG) (f1 f2 : Fill) (m : Med)
    (h1 : f1.medication = some m) (h2 : f2.medication = some m)
    (hu : m.uri ≠ "") (hff : f1.uriFulfillments ≠ f2.uriFulfillments)
    (hmed0 : st.g.filter (spTyping "Medication") = [])
    (hful0 : st.g.filter (spTyping "Fulfillment") = []) :
    (addFillList st [f1, f2]).1 = .ok () ∧
    (addFillList st [f1, f2]).2.g.filter (spTyping "Medication") =
      [⟨.uriref m.uri, RDFtype, SP "Medication"⟩] ∧
    (addFillList st [f1, f2]).2.g.filter (spTyping "Fulfillment") =
      [⟨.uriref f1.uriFulfillments, RDFtype, SP "Fulfillment"⟩,
       ⟨.uriref f2.uriFulfillments, RDFtype, SP "Fulfillment"⟩] ∧
    (Node.uriref f1.uriFulfillments) ≠ (Node.uriref f2.uriFulfillments) ∧
    Stmt.mk (.uriref f1.uriFulfillments) (SP "medication") (.uriref m.uri) ∈
      (addFillList st [f1, f2]).2.g ∧
    Stmt.mk (.uriref f2.uriFulfillments) (SP "medication") (.uriref m.uri) ∈
      (addFillList st [f1, f2]).2.g ∧
    Stmt.mk (.uriref m.uri) (SP "fulfillment") (.uriref f1.uriFulfillments) ∈
      (addFillList st [f1, f2]).2.g ∧
    Stmt.mk (.uriref m.uri) (SP "fulfillment") (.uriref f2.uriFulfillments) ∈
      (addFillList st [f1, f2]).2.g := by
  have htr : truthy (Node.uriref m.uri) = true := by simp [truthy, hu]
  rw [addFillList_two_eq st f1 f2 m h1 h2 hu]
  refine ⟨rfl, ?_, ?_, by simp [hff], ?_, ?_, ?_, ?_⟩
  · rw [addFill_medTyping, addFill_medTyping, addStatement_spTyping, medication_medTyping,
      hmed0]
    rfl
  · rw [addFill_fulTyping, addFill_fulTyping, addStatement_spTyping, medication_fulTyping,
      hful0]
    rfl
  · exact (addFill_mono _ f2 _ false).subset (addFill_mem_medlink _ f1 _ m h1)
  · exact addFill_mem_medlink _ f2 _ m h2
  · exact (addFill_mono _ f2 _ false).subset (addFill_mem_fullink _ f1 _ false htr)
  · exact addFill_mem_fullink _ f2 _ false htr

/-- Witness for C3: two concrete fulfillments of one concrete medication,
starting from a freshly initialized patient graph. -/
theorem C3_addFillList_dedup_witness :
    (addFillList (PatientGraph.init "r") [wFill1, wFill2]).1 = .ok () ∧
    (addFillList (PatientGraph.init "r") [wFill1, wFill2]).2.g.filter (spTyping "Medication") =
      [⟨.uriref wMed.uri, RDFtype, SP "Medication"⟩] ∧
    (addFillList (PatientGraph.init "r") [wFill1, wFill2]).2.g.filter (spTyping "Fulfillment") =
      [⟨.uriref wFill1.uriFulfillments, RDFtype, SP "Fulfillment"⟩,
       ⟨.uriref wFill2.uriFulfillments, RDFtype, SP "Fulfillment"⟩] ∧
    (Node.uriref wFill1.uriFulfillments) ≠ (Node.uriref wFill2.uriFulfillments) ∧
    Stmt.mk (.uriref wFill1.uriFulfillments) (SP "medication") (.uriref wMed.uri) ∈
      (addFillList (PatientGraph.init "r") [wFill1, wFill2]).2.g ∧
    Stmt.mk (.uriref wFill2.uriFulfillments) (SP "medication") (.uriref wMed.uri) ∈
      (addFillList (PatientGraph.init "r") [wFill1, wFill2]).2.g ∧
    Stmt.mk (.uriref wMed.uri) (SP "fulfillment") (.uriref wFill1.uriFulfillments) ∈
      (addFillList (PatientGraph.init "r") [wFill1, wFill2]).2.g ∧
    Stmt.mk (.uriref wMed.uri) (SP "fulfillment") (.uriref wFill2.uriFulfillments) ∈
      (addFillList (PatientGraph.init "r") [wFill1, wFill2]).2.g :=
  C3_addFillList_dedup (PatientGraph.init "r") wFill1 wFill2 wMed rfl rfl
    (by decide) (by decide) (by decide) (by decide)

theorem pharmacy_none (st : PG) (obj : Obj) (pfx : String)
    (h : obj_fields_by_name obj pfx
      ["ncpdpid", "org", "adr_country", "adr_city", "adr_postalcode", "adr_region", "adr_street"] =
      .ok none) :
    pharmacy st obj pfx = (none, st) := by
  unfold pharmacy
  rw [h]

theorem provider_none (st : PG) (obj : Obj) (pfx : String)
    (h : obj_fields_by_name obj pfx
      ["dea_number", "ethnicity", "npi_number", "preferred_language", "race", "bday", "email", "gender"] =
      .ok none) :
    provider st obj pfx = (none, st) := by
  unfold provider
  rw [h]

/-- **C1** (counterexample to the claim as stated): called with exactly one
truthy argument (`uri`), `codedValue` returns a non-null node but still
attaches a `dcterms:title` edge although `title` is the falsy `""` — so it
is not the case that a title edge is attached only if its source argument
is truthy. -/
theorem C1_codedValue_counterexample :
    (codedValue (PatientGraph.init "r") Node.null "u" "" "" "").1.isSome = true ∧
    Stmt.mk (.bnode 1) (DCTERMS "title") (.literal "") ∈
      (codedValue (PatientGraph.init "r") Node.null "u" "" "" "").2.g ∧
    Stmt.mk (.bnode 1) (DCTERMS "title") (.literal "") ∉ (PatientGraph.init "r").g := by
  decide

/-- **C1** (amended): if all five arguments are empty/falsy, `codedValue`
returns null and the graph is unchanged; for any call with at least one
truthy argument it returns a non-null node and attaches the title, system
and identifier edges unconditionally — regardless of whether their source
arguments are truthy (empty arguments yield empty literals). -/
theorem C1_codedValue_amended (st : PG) (c : Node) (u ti sy idf : String) :
    (¬ (truthy c = true ∨ u ≠ "" ∨ ti ≠ "" ∨ sy ≠ "" ∨ idf ≠ "") →
      codedValue st c u ti sy idf = (none, st)) ∧
    ((truthy c = true ∨ u ≠ "" ∨ ti ≠ "" ∨ sy ≠ "" ∨ idf ≠ "") →
      (codedValue st c u ti sy idf).1 = some (.bnode st.ctr) ∧
      Stmt.mk (.bnode st.ctr) (DCTERMS "title") (.literal ti) ∈
        (codedValue st c u ti sy idf).2.g ∧
      Stmt.mk (.uriref u) (DCTERMS "title") (.literal ti) ∈ (codedValue st c u ti sy idf).2.g ∧
      Stmt.mk (.uriref u) (SP "system") (.literal sy) ∈ (codedValue st c u ti sy idf).2.g ∧
      Stmt.mk (.uriref u) (DCTERMS "identifier") (.literal idf) ∈
        (codedValue st c u ti sy idf).2.g) := by
  constructor
  · exact codedValue_none st c u ti sy idf
  · intro h
    rw [codedValue_eq st c u ti sy idf h]
    refine ⟨rfl, ?_, ?_, ?_, ?_⟩ <;> simp

/-- Witness for the amended C1: one all-falsy call and one call with a
truthy `uri` and falsy `title`/`system`/`identifier`. -/
theorem C1_codedValue_amended_witness :
    codedValue (PatientGraph.init "r") Node.null "" "" "" "" = (none, PatientGraph.init "r") ∧
    ((codedValue (PatientGraph.init "r") Node.null "u" "" "" "").1 =
        some (.bnode (PatientGraph.init "r").ctr) ∧
      Stmt.mk (.bnode (PatientGraph.init "r").ctr) (DCTERMS "title") (.literal "") ∈
        (codedValue (PatientGraph.init "r") Node.null "u" "" "" "").2.g ∧
      Stmt.mk (.uriref "u") (DCTERMS "title") (.literal "") ∈
        (codedValue (PatientGraph.init "r") Node.null "u" "" "" "").2.g ∧
      Stmt.mk (.uriref "u") (SP "system") (.literal "") ∈
        (codedValue (PatientGraph.init "r") Node.null "u" "" "" "").2.g ∧
      Stmt.mk (.uriref "u") (DCTERMS "identifier") (.literal "") ∈
        (codedValue (PatientGraph.init "r") Node.null "u" "" "" "").2.g) :=
  ⟨(C1_codedValue_amended (PatientGraph.init "r") Node.null "" "" "" "").1 (by decide),
   (C1_codedValue_amended (PatientGraph.init "r") Node.null "u" "" "" "").2 (by decide)⟩

/-- **C2** (counterexample to the claim as stated): with a truthy `value`
and falsy `units`, `valueAndUnit` attaches a `sp:unit` edge (with empty
literal) — not "only the value literal". -/
theorem C2_valueAndUnit_counterexample :
    (valueAndUnit (PatientGraph.init "r") "5" "").1.isSome = true ∧
    Stmt.mk (.bnode 1) (SP "unit") (.literal "") ∈
      (valueAndUnit (PatientGraph.init "r") "5" "").2.g ∧
    Stmt.mk (.bnode 1) (SP "unit") (.literal "") ∉ (PatientGraph.init "r").g := by
  decide

/-- **C2** (amended): if both arguments are empty, `valueAndUnit` returns
null with the graph unchanged; otherwise it returns a non-null node with
both the value and the unit literal attached, even when one of the two is
empty. -/
theorem C2_valueAndUnit_amended (st : PG) (v u : String) :
    ((v = "" ∧ u = "") → valueAndUnit st v u = (none, st)) ∧
    (¬ (v = "" ∧ u = "") →
      (valueAndUnit st v u).1 = some (.bnode st.ctr) ∧
      Stmt.mk (.bnode st.ctr) (SP "value") (.literal v) ∈ (valueAndUnit st v u).2.g ∧
      Stmt.mk (.bnode st.ctr) (SP "unit") (.literal u) ∈ (valueAndUnit st v u).2.g) := by
  constructor
  · exact valueAndUnit_none st v u
  · intro h
    rw [valueAndUnit_eq st v u h]
    refine ⟨rfl, ?_, ?_⟩ <;> simp

/-- Witness for the amended C2: one both-empty call, one value-only call. -/
theorem C2_valueAndUnit_amended_witness :
    valueAndUnit (PatientGraph.init "r") "" "" = (none, PatientGraph.init "r") ∧
    ((valueAndUnit (PatientGraph.init "r") "5" "").1 =
        some (.bnode (PatientGraph.init "r").ctr) ∧
      Stmt.mk (.bnode (PatientGraph.init "r").ctr) (SP "value") (.literal "5") ∈
        (valueAndUnit (PatientGraph.init "r") "5" "").2.g ∧
      Stmt.mk (.bnode (PatientGraph.init "r").ctr) (SP "unit") (.literal "") ∈
        (valueAndUnit (PatientGraph.init "r") "5" "").2.g) :=
  ⟨(C2_valueAndUnit_amended (PatientGraph.init "r") "" "").1 (by decide),
   (C2_valueAndUnit_amended (PatientGraph.init "r") "5" "").2 (by decide)⟩

/-- **C7**: on a non-empty suffix list, `_obj_fields_by_name` returns null
exactly when every addressed field is empty (regardless of which ones), and
the complete suffix→value mapping otherwise; `address`, `telephone`,
`name`, `pharmacy` and `provider` each propagate the null, returning null
with the builder state (hence the graph) unchanged. -/
theorem C7_obj_fields_null_propagation :
    (∀ (obj : Obj) (pfx : String) (suffixes : List String), suffixes ≠ [] →
      (obj_fields_by_name obj pfx suffixes = .ok none ↔
        ∀ s ∈ suffixes, obj.attr (pfx ++ "_" ++ s) = "") ∧
      ((¬ ∀ s ∈ suffixes, obj.attr (pfx ++ "_" ++ s) = "") →
        obj_fields_by_name obj pfx suffixes =
          .ok (some (suffixes.map (fun s => (s, obj.attr (pfx ++ "_" ++ s))))))) ∧
    (∀ (st : PG) (obj : Obj) (pfx : String),
      obj_fields_by_name obj pfx ["country", "city", "postalcode", "region", "street"] =
        .ok none → address st obj pfx = (none, st)) ∧
    (∀ (st : PG) (obj : Obj) (pfx : String),
      obj_fields_by_name obj pfx ["type", "number", "preferred_p"] = .ok none →
        telephone st obj pfx = (none, st)) ∧
    (∀ (st : PG) (obj : Obj) (pfx : String),
      obj_fields_by_name obj pfx ["family", "given", "prefix", "suffix"] = .ok none →
        name st obj pfx = (none, st)) ∧
    (∀ (st : PG) (obj : Obj) (pfx : String),
      obj_fields_by_name obj pfx
          ["ncpdpid", "org", "adr_country", "adr_city", "adr_postalcode", "adr_region", "adr_street"] =
        .ok none → pharmacy st obj pfx = (none, st)) ∧
    (∀ (st : PG) (obj : Obj) (pfx : String),
      obj_fields_by_name obj pfx
          ["dea_number", "ethnicity", "npi_number", "preferred_language", "race", "bday", "email", "gender"] =
        .ok none → provider st obj pfx = (none, st)) :=
  ⟨obj_fields_by_name_spec, address_none, telephone_none, name_none, pharmacy_none,
   provider_none⟩

/-- Witness for C7: the all-empty record propagates null through every
composite builder, leaving the freshly initialized graph unchanged. -/
theorem C7_obj_fields_null_propagation_witness :
    (obj_fields_by_name emptyObj "home" ["country", "city", "postalcode", "region", "street"] =
        .ok none ↔
      ∀ s ∈ ["country", "city", "postalcode", "region", "street"],
        emptyObj.attr ("home" ++ "_" ++ s) = "") ∧
    address (PatientGraph.init "r") emptyObj "home" = (none, PatientGraph.init "r") ∧
    telephone (PatientGraph.init "r") emptyObj "home" = (none, PatientGraph.init "r") ∧
    name (PatientGraph.init "r") emptyObj "home" = (none, PatientGraph.init "r") ∧
    pharmacy (PatientGraph.init "r") emptyObj "home" = (none, PatientGraph.init "r") ∧
    provider (PatientGraph.init "r") emptyObj "home" = (none, PatientGraph.init "r") :=
  ⟨(C7_obj_fields_null_propagation.1 emptyObj "home" _ (by decide)).1,
   C7_obj_fields_null_propagation.2.1 _ emptyObj "home" rfl,
   C7_obj_fields_null_propagation.2.2.1 _ emptyObj "home" rfl,
   C7_obj_fields_null_propagation.2.2.2.1 _ emptyObj "home" rfl,
   C7_obj_fields_null_propagation.2.2.2.2.1 _ emptyObj "home" rfl,
   C7_obj_fields_null_propagation.2.2.2.2.2 _ emptyObj "home" rfl⟩

/-- **C9**: on a `PatientGraph` built by `__init__` (which never assigns
`self.pid`), each of `addVitalSigns`, `addImmunizations`, `addLabResults`
and `addAllergies` raises `AttributeError` at its first read of `self.pid`,
before any statement is appended: the returned state is exactly the
initial one, so the graph is unchanged. -/
theorem C9_registry_methods_raise (record : String) :
    addVitalSigns (PatientGraph.init record) =
      (.error .attributeError, PatientGraph.init record) ∧
    addImmunizations (PatientGraph.init record) =
      (.error .attributeError, PatientGraph.init record) ∧
    addLabResults (PatientGraph.init record) =
      (.error .attributeError, PatientGraph.init record) ∧
    addAllergies (PatientGraph.init record) =
      (.error .attributeError, PatientGraph.init record) :=
  ⟨rfl, rfl, rfl, rfl⟩

/-- **C10**: every call to `addDemographics` raises `NameError` (the body
reads the undefined bare names `g` and `p`), but only after `addStatement`
has appended the `(node, sp:belongsTo, patientAnchor)` statement — the
failed call leaves the graph mutated, so the error is not atomic with
respect to graph state. -/
theorem C10_addDemographics_partial_mutation (st : PG) (record : String) :
    addDemographics st record =
      (.error .nameError,
       { st with ctr := st.ctr + 1,
                 g := st.g ++ [⟨.bnode st.ctr, SP "belongsTo", st.patient⟩] }) ∧
    (addDemographics st record).2.g ≠ st.g := by
  constructor
  · rfl
  · show st.g ++ [Stmt.mk (.bnode st.ctr) (SP "belongsTo") st.patient] ≠ st.g
    rw [Ne, append_eq_left]
    simp

/-! ## Edges by `sp` predicate -/

/-- `spEdge y t`: `t` is an edge with predicate `sp:y`. -/
def spEdge (y : String) (t : Stmt) : Bool := t.p == SP y

theorem sp_inj {x y : String} : SP x = SP y ↔ x = y := by
  constructor
  · intro h
    simp only [SP, Node.uriref.injEq] at h
    have hd : "http://smartplatforms.org/terms#".data ++ x.data =
        "http://smartplatforms.org/terms#".data ++ y.data := by
      have := congrArg String.data h
      simpa [String.data_append] using this
    have hxy := List.append_cancel_left hd
    cases x
    cases y
    exact congrArg String.mk (by simpa using hxy)
  · rintro rfl
    rfl

theorem rdftype_ne_sp (y : String) : ¬ RDFtype = SP y :=
  fun h => sp_ne_rdftype y h.symm

theorem dcterms_ne_sp (x y : String) : ¬ DCTERMS x = SP y := by
  simp only [DCTERMS, SP, Node.uriref.injEq, ne_eq]
  exact append_ne_append_of_take_ne 8 _ _ (by decide) (by decide) (by decide) x y

theorem vcard_ne_sp_edge (x y : String) : ¬ VCARD x = SP y := vcard_ne_sp x y

theorem codedValue_spEdge (st : PG) (c : Node) (u ti sy idf : String) (y : String)
    (h1 : ¬ SP "code" = SP y) (h2 : ¬ SP "system" = SP y) :
    ((codedValue st c u ti sy idf).2.g).filter (spEdge y) = st.g.filter (spEdge y) := by
  by_cases h : truthy c = true ∨ u ≠ "" ∨ ti ≠ "" ∨ sy ≠ "" ∨ idf ≠ ""
  · rw [codedValue_eq st c u ti sy idf h]
    dsimp only
    simp [List.filter_append, List.filter_cons, spEdge, h1, h2, rdftype_ne_sp, dcterms_ne_sp]
  · rw [codedValue_none st c u ti sy idf h]

theorem valueAndUnit_spEdge (st : PG) (v u : String) (y : String)
    (h1 : ¬ SP "value" = SP y) (h2 : ¬ SP "unit" = SP y) :
    ((valueAndUnit st v u).2.g).filter (spEdge y) = st.g.filter (spEdge y) := by
  by_cases h : v = "" ∧ u = ""
  · rw [valueAndUnit_none st v u h]
  · rw [valueAndUnit_eq st v u h]
    dsimp only
    simp [List.filter_append, List.filter_cons, spEdge, h1, h2, rdftype_ne_sp]

/-- **C6**: per lab record processed by the body of `addLabResults`: with
`scale = "Qn"` the lab node gets a `sp:quantitativeResult` edge and no
`sp:narrativeResult` edge is added; with `scale = "Ord"` the reverse; with
any other scale neither edge is added. -/
theorem C6_lab_scale_exclusivity (st : PG) (lab : Lab) :
    (lab.scale = "Qn" →
      (∃ q, Stmt.mk (.bnode st.ctr) (SP "quantitativeResult") q ∈ (addLabResults_lab st lab).g) ∧
      ((addLabResults_lab st lab).g).filter (spEdge "narrativeResult") =
        st.g.filter (spEdge "narrativeResult")) ∧
    (lab.scale = "Ord" →
      (∃ q, Stmt.mk (.bnode st.ctr) (SP "narrativeResult") q ∈ (addLabResults_lab st lab).g) ∧
      ((addLabResults_lab st lab).g).filter (spEdge "quantitativeResult") =
        st.g.filter (spEdge "quantitativeResult")) ∧
    (lab.scale ≠ "Qn" → lab.scale ≠ "Ord" →
      ((addLabResults_lab st lab).g).filter (spEdge "quantitativeResult") =
        st.g.filter (spEdge "quantitativeResult") ∧
      ((addLabResults_lab st lab).g).filter (spEdge "narrativeResult") =
        st.g.filter (spEdge "narrativeResult")) := by
  have hcv : ∀ (st' : PG) (u ti idf : String),
      codedValue st' (SPCODE "LOINC") u ti (LOINC_URI "") idf =
        (some (.bnode st'.ctr),
         { st' with ctr := st'.ctr + 1,
                    g := st'.g ++
                      [⟨.bnode st'.ctr, RDFtype, SP "CodedValue"⟩,
                       ⟨.bnode st'.ctr, DCTERMS "title", .literal ti⟩,
                       ⟨.bnode st'.ctr, SP "code", .uriref u⟩,
                       ⟨.uriref u, RDFtype, SPCODE "LOINC"⟩,
                       ⟨.uriref u, RDFtype, SP "Code"⟩,
                       ⟨.uriref u, DCTERMS "title", .literal ti⟩,
                       ⟨.uriref u, SP "system", .literal (LOINC_URI "")⟩,
                       ⟨.uriref u, DCTERMS "identifier", .literal idf⟩] }) :=
    fun st' u ti idf =>
      codedValue_eq st' (SPCODE "LOINC") u ti (LOINC_URI "") idf (Or.inl (by decide))
  have hvq : ∀ (st' : PG) (v u : String),
      ((valueAndUnit st' v u).2.g).filter (spEdge "quantitativeResult") =
        st'.g.filter (spEdge "quantitativeResult") :=
    fun st' v u => valueAndUnit_spEdge st' v u _ (by simp [sp_inj]) (by simp [sp_inj])
  have hvn : ∀ (st' : PG) (v u : String),
      ((valueAndUnit st' v u).2.g).filter (spEdge "narrativeResult") =
        st'.g.filter (spEdge "narrativeResult") :=
    fun st' v u => valueAndUnit_spEdge st' v u _ (by simp [sp_inj]) (by simp [sp_inj])
  refine ⟨?_, ?_, ?_⟩
  · intro hs
    unfold addLabResults_lab
    dsimp only
    constructor
    · refine ⟨.bnode (st.ctr + 1 + 1), ?_⟩
      simp [hs, hcv, PG.add, PG.newBNode, PG.ite_g, addStatement, List.mem_append]
    · simp [hs, hcv, PG.add, PG.newBNode, PG.ite_g, addStatement, filter_ite_list,
        List.filter_append, List.filter_cons, spEdge, hvn, sp_inj, rdftype_ne_sp,
        dcterms_ne_sp]
  · intro hs
    unfold addLabResults_lab
    dsimp only
    constructor
    · refine ⟨.bnode (st.ctr + 1 + 1), ?_⟩
      simp [hs, hcv, PG.add, PG.newBNode, PG.ite_g, addStatement, List.mem_append]
    · simp [hs, hcv, PG.add, PG.newBNode, PG.ite_g, addStatement, filter_ite_list,
        List.filter_append, List.filter_cons, spEdge, hvq, sp_inj, rdftype_ne_sp,
        dcterms_ne_sp]
  · intro hq ho
    unfold addLabResults_lab
    dsimp only
    constructor
    · simp [hq, ho, hcv, PG.add, PG.newBNode, PG.ite_g, addStatement, filter_ite_list,
        List.filter_append, List.filter_cons, spEdge, hvq, sp_inj, rdftype_ne_sp,
        dcterms_ne_sp]
    · simp [hq, ho, hcv, PG.add, PG.newBNode, PG.ite_g, addStatement, filter_ite_list,
        List.filter_append, List.filter_cons, spEdge, hvn, sp_inj, rdftype_ne_sp,
        dcterms_ne_sp]

/-- Witness for C6: a concrete "Qn" lab, a concrete "Ord" lab and a concrete
"Nom" lab against a freshly initialized graph. -/
theorem C6_lab_scale_exclusivity_witness :
    ((∃ q, Stmt.mk (.bnode (PatientGraph.init "r").ctr) (SP "quantitativeResult") q ∈
        (addLabResults_lab (PatientGraph.init "r") wLabQn).g) ∧
      ((addLabResults_lab (PatientGraph.init "r") wLabQn).g).filter (spEdge "narrativeResult") =
        (PatientGraph.init "r").g.filter (spEdge "narrativeResult")) ∧
    ((∃ q, Stmt.mk (.bnode (PatientGraph.init "r").ctr) (SP "narrativeResult") q ∈
        (addLabResults_lab (PatientGraph.init "r") wLabOrd).g) ∧
      ((addLabResults_lab (PatientGraph.init "r") wLabOrd).g).filter (spEdge "quantitativeResult") =
        (PatientGraph.init "r").g.filter (spEdge "quantitativeResult")) ∧
    (((addLabResults_lab (PatientGraph.init "r") wLabNom).g).filter (spEdge "quantitativeResult") =
        (PatientGraph.init "r").g.filter (spEdge "quantitativeResult") ∧
      ((addLabResults_lab (PatientGraph.init "r") wLabNom).g).filter (spEdge "narrativeResult") =
        (PatientGraph.init "r").g.filter (spEdge "narrativeResult")) :=
  ⟨(C6_lab_scale_exclusivity (PatientGraph.init "r") wLabQn).1 rfl,
   (C6_lab_scale_exclusivity (PatientGraph.init "r") wLabOrd).2.1 rfl,
   (C6_lab_scale_exclusivity (PatientGraph.init "r") wLabNom).2.2 (by decide) (by decide)⟩

/-- **C4** (counterexample to the claim as stated): `addLabResults` attaches
the result of `valueAndUnit` with no null check; for a "Qn" lab whose value
and units are both empty, a statement with a null object is added to the
graph (the initial graph had none). -/
theorem C4_null_check_counterexample :
    Stmt.mk (.bnode 3) (SP "valueAndUnit") Node.null ∈
      (addLabResults_lab (PatientGraph.init "r") wLabEmptyQn).g ∧
    (∀ t ∈ (PatientGraph.init "r").g, t.o ≠ Node.null) := by
  decide

/-- **C4** (amended): the null-check rule holds at the address / telephone /
name / pharmacy / provider attachment sites (the attach-if-non-null pattern
adds an edge exactly when the sub-builder returned a node), and the
codedValue call sites cannot receive null (every call passes a truthy
`SPCODE` code class, and a truthy code class forces a non-null result);
guarded `valueAndUnit` sites (quantity, frequency, quantityDispensed) check
their components, and a truthy value forces a non-null result.  The rule
fails only at the unguarded sites shown by the counterexample
(`addLabResults`'s quantitative edges, and `provider`'s name edge). -/
theorem C4_null_check_amended :
    (∀ (st : PG) (c : Node) (u ti sy idf : String),
      truthy c = true → (codedValue st c u ti sy idf).1.isSome = true) ∧
    (∀ (st : PG) (v u : String), v ≠ "" → (valueAndUnit st v u).1.isSome = true) ∧
    (truthy (SPCODE "RxNorm_Semantic") = true ∧ truthy (SPCODE "MedicationProvenance") = true ∧
      truthy (SPCODE "SNOMED") = true ∧ truthy (SPCODE "LOINC") = true) ∧
    (∀ (r : Option Node × PG) (f : Node → Stmt),
      (r.1 = none → PG.attachOpt r f = r.2) ∧
      (∀ a, r.1 = some a → PG.attachOpt r f = r.2.add (f a))) := by
  refine ⟨?_, ?_, ⟨by decide, by decide, by decide, by decide⟩, ?_⟩
  · intro st c u ti sy idf h
    rw [codedValue_eq st c u ti sy idf (Or.inl h)]
    rfl
  · intro st v u h
    rw [valueAndUnit_eq st v u (fun hc => h hc.1)]
    rfl
  · intro r f
    rcases r with ⟨_ | a, st2⟩
    · exact ⟨fun _ => rfl, fun a ha => by simp at ha⟩
    · exact ⟨fun h => by simp at h, fun b hb => by cases hb; rfl⟩

/-- Witness for the amended C4. -/
theorem C4_null_check_amended_witness :
    (codedValue (PatientGraph.init "r") (SPCODE "LOINC") "" "" "" "").1.isSome = true ∧
    (valueAndUnit (PatientGraph.init "r") "5" "").1.isSome = true ∧
    PG.attachOpt (none, PatientGraph.init "r") (fun a => ⟨a, SP "pharmacy", a⟩) =
      PatientGraph.init "r" ∧
    PG.attachOpt (some (Node.bnode 7), PatientGraph.init "r") (fun a => ⟨a, SP "pharmacy", a⟩) =
      (PatientGraph.init "r").add ⟨Node.bnode 7, SP "pharmacy", Node.bnode 7⟩ :=
  ⟨C4_null_check_amended.1 _ _ _ _ _ _ (by decide),
   C4_null_check_amended.2.1 _ _ "" (by decide),
   (C4_null_check_amended.2.2.2 (none, PatientGraph.init "r") _).1 rfl,
   (C4_null_check_amended.2.2.2 (some (Node.bnode 7), PatientGraph.init "r") _).2 _ rfl⟩

/-! ## Edges by arbitrary predicate, and the remaining namespace facts -/

/-- `pEdge p0 t`: `t` is an edge with predicate `p0`. -/
def pEdge (p0 : Node) (t : Stmt) : Bool := t.p == p0

theorem vcard_inj {x y : String} : VCARD x = VCARD y ↔ x = y := by
  constructor
  · intro h
    simp only [VCARD, Node.uriref.injEq] at h
    have hd : "http://www.w3.org/2006/vcard/ns#".data ++ x.data =
        "http://www.w3.org/2006/vcard/ns#".data ++ y.data := by
      have := congrArg String.data h
      simpa [String.data_append] using this
    have hxy := List.append_cancel_left hd
    cases x
    cases y
    exact congrArg String.mk (by simpa using hxy)
  · rintro rfl
    rfl

theorem foaf_ne_sp (x y : String) : ¬ FOAF x = SP y := by
  simp only [FOAF, SP, Node.uriref.injEq, ne_eq]
  exact append_ne_append_of_take_ne 8 _ _ (by decide) (by decide) (by decide) x y

theorem foaf_ne_vcard (x y : String) : ¬ FOAF x = VCARD y := by
  simp only [FOAF, VCARD, Node.uriref.injEq, ne_eq]
  exact append_ne_append_of_take_ne 8 _ _ (by decide) (by decide) (by decide) x y

theorem sp_ne_vcard (x y : String) : ¬ SP x = VCARD y :=
  fun h => vcard_ne_sp y x h.symm

theorem rdftype_ne_vcard (x : String) : ¬ RDFtype = VCARD x :=
  fun h => vcard_ne_rdftype x h.symm

theorem rdftype_ne_foaf (x : String) : ¬ RDFtype = FOAF x :=
  fun h => foaf_ne_rdftype x h.symm

theorem sp_ne_foaf (x y : String) : ¬ SP x = FOAF y :=
  fun h => foaf_ne_sp y x h.symm

theorem vcard_ne_foaf (x y : String) : ¬ VCARD x = FOAF y :=
  fun h => foaf_ne_vcard y x h.symm

theorem filter_add_p (p : Stmt → Bool) (st : PG) (t : Stmt) (h : p t = false) :
    ((st.add t).g).filter p = st.g.filter p := by
  simp [PG.add, List.filter_append, h]

theorem attachOpt_none (st : PG) (f : Node → Stmt) : PG.attachOpt (none, st) f = st := rfl

theorem filter_attachOpt_p (p : Stmt → Bool) (r : Option Node × PG) (f : Node → Stmt)
    (hf : ∀ a, p (f a) = false) :
    ((PG.attachOpt r f).g).filter p = (r.2.g).filter p := by
  unfold PG.attachOpt
  rcases r with ⟨_ | a, st⟩
  · rfl
  · exact filter_add_p p st (f a) (hf a)

/-- `address` adds no edge with a predicate outside its own fixed set. -/
theorem address_pEdge (st : PG) (obj : Obj) (pfx : String) (p0 : Node)
    (h1 : ¬ RDFtype = p0)
    (h2 : ¬ VCARD "street-address" = p0) (h3 : ¬ VCARD "locality" = p0)
    (h4 : ¬ VCARD "region" = p0) (h5 : ¬ VCARD "postal-code" = p0)
    (h6 : ¬ VCARD "country" = p0) :
    ((address st obj pfx).2.g).filter (pEdge p0) = st.g.filter (pEdge p0) := by
  rcases hm : obj_fields_by_name obj pfx ["country", "city", "postalcode", "region", "street"]
    with e | o
  · unfold address
    rw [hm]
  · rcases o with _ | fields
    · rw [address_none st obj pfx hm]
    · rw [address_some st obj pfx fields hm]
      dsimp only
      simp [PG.ite_g, filter_ite_list, List.filter_append, List.filter_cons, pEdge,
        h1, h2, h3, h4, h5, h6]

/-- `telephone` adds no edge with a predicate outside its own fixed set. -/
theorem telephone_pEdge (st : PG) (obj : Obj) (pfx : String) (p0 : Node)
    (h1 : ¬ RDFtype = p0) (h2 : ¬ VCARD "value" = p0) :
    ((telephone st obj pfx).2.g).filter (pEdge p0) = st.g.filter (pEdge p0) := by
  rcases hm : obj_fields_by_name obj pfx ["type", "number", "preferred_p"] with e | o
  · unfold telephone
    rw [hm]
  · rcases o with _ | fields
    · rw [telephone_none st obj pfx hm]
    · rw [telephone_some st obj pfx fields hm]
      dsimp only
      simp [PG.ite_g, filter_ite_list, List.filter_append, List.filter_cons, pEdge, h1, h2]

/-- `name` adds no edge with a predicate outside its own fixed set. -/
theorem name_pEdge (st : PG) (obj : Obj) (pfx : String) (p0 : Node)
    (h1 : ¬ RDFtype = p0)
    (h2 : ¬ VCARD "family-name" = p0) (h3 : ¬ VCARD "given-name" = p0)
    (h4 : ¬ VCARD "honorific-prefix" = p0) (h5 : ¬ VCARD "honorific-suffix" = p0) :
    ((name st obj pfx).2.g).filter (pEdge p0) = st.g.filter (pEdge p0) := by
  rcases hm : obj_fields_by_name obj pfx ["family", "given", "prefix", "suffix"] with e | o
  · unfold name
    rw [hm]
  · rcases o with _ | fields
    · rw [name_none st obj pfx hm]
    · rw [name_some st obj pfx fields hm]
      dsimp only
      simp [PG.ite_g, filter_ite_list, List.filter_append, List.filter_cons, pEdge,
        h1, h2, h3, h4, h5]

theorem mem_of_mono {l₁ l₂ : List Stmt} {t : Stmt} (h : t ∈ l₁) (hp : l₁ <+: l₂) :
    t ∈ l₂ :=
  hp.subset h

set_option maxHeartbeats 2000000 in
/-- **C5**: whenever `provider` returns a non-null node, that node carries a
`v:n` (Name) edge unconditionally — even when every underlying name field is
empty (so the `name` helper returns null) the edge is still added, pointing
at a null target — whereas every other field is attached only conditionally:
each of the eight literal fields is attached exactly when its value is
truthy, and the address / telephone edges are absent when their field
groups are all empty (their sub-builders return null). -/
theorem C5_provider_name_quirk (st : PG) (obj : Obj) (pfx : String)
    (hsome : ¬ ∀ s ∈ ["dea_number", "ethnicity", "npi_number", "preferred_language", "race",
        "bday", "email", "gender"], obj.attr (pfx ++ "_" ++ s) = "") :
    (provider st obj pfx).1 = some (.bnode st.ctr) ∧
    (∃ o, Stmt.mk (.bnode st.ctr) (VCARD "n") o ∈ (provider st obj pfx).2.g) ∧
    ((∀ s ∈ ["family", "given", "prefix", "suffix"],
        obj.attr (pfx ++ "_name" ++ "_" ++ s) = "") →
      Stmt.mk (.bnode st.ctr) (VCARD "n") Node.null ∈ (provider st obj pfx).2.g) ∧
    (((provider st obj pfx).2.g).filter (pEdge (SP "deaNumber")) =
      st.g.filter (pEdge (SP "deaNumber")) ++
        (if obj.attr (pfx ++ "_" ++ "dea_number") ≠ "" then
          [⟨.bnode st.ctr, SP "deaNumber", .literal (obj.attr (pfx ++ "_" ++ "dea_number"))⟩]
         else [])) ∧
    (((provider st obj pfx).2.g).filter (pEdge (SP "ethnicity")) =
      st.g.filter (pEdge (SP "ethnicity")) ++
        (if obj.attr (pfx ++ "_" ++ "ethnicity") ≠ "" then
          [⟨.bnode st.ctr, SP "ethnicity", .literal (obj.attr (pfx ++ "_" ++ "ethnicity"))⟩]
         else [])) ∧
    (((provider st obj pfx).2.g).filter (pEdge (SP "npiNumber")) =
      st.g.filter (pEdge (SP "npiNumber")) ++
        (if obj.attr (pfx ++ "_" ++ "npi_number") ≠ "" then
          [⟨.bnode st.ctr, SP "npiNumber", .literal (obj.attr (pfx ++ "_" ++ "npi_number"))⟩]
         else [])) ∧
    (((provider st obj pfx).2.g).filter (pEdge (SP "preferredLanguage")) =
      st.g.filter (pEdge (SP "preferredLanguage")) ++
        (if obj.attr (pfx ++ "_" ++ "preferred_language") ≠ "" then
          [⟨.bnode st.ctr, SP "preferredLanguage",
            .literal (obj.attr (pfx ++ "_" ++ "preferred_language"))⟩]
         else [])) ∧
    (((provider st obj pfx).2.g).filter (pEdge (SP "race")) =
      st.g.filter (pEdge (SP "race")) ++
        (if obj.attr (pfx ++ "_" ++ "race") ≠ "" then
          [⟨.bnode st.ctr, SP "race", .literal (obj.attr (pfx ++ "_" ++ "race"))⟩]
         else [])) ∧
    (((provider st obj pfx).2.g).filter (pEdge (VCARD "bday")) =
      st.g.filter (pEdge (VCARD "bday")) ++
        (if obj.attr (pfx ++ "_" ++ "bday") ≠ "" then
          [⟨.bnode st.ctr, VCARD "bday", .literal (obj.attr (pfx ++ "_" ++ "bday"))⟩]
         else [])) ∧
    (((provider st obj pfx).2.g).filter (pEdge (VCARD "email")) =
      st.g.filter (pEdge (VCARD "email")) ++
        (if obj.attr (pfx ++ "_" ++ "email") ≠ "" then
          [⟨.bnode st.ctr, VCARD "email", .literal (obj.attr (pfx ++ "_" ++ "email"))⟩]
         else [])) ∧
    (((provider st obj pfx).2.g).filter (pEdge (FOAF "gender")) =
      st.g.filter (pEdge (FOAF "gender")) ++
        (if obj.attr (pfx ++ "_" ++ "gender") ≠ "" then
          [⟨.bnode st.ctr, FOAF "gender", .literal (obj.attr (pfx ++ "_" ++ "gender"))⟩]
         else [])) ∧
    ((∀ s ∈ ["country", "city", "postalcode", "region", "street"],
        obj.attr (pfx ++ "_adr" ++ "_" ++ s) = "") →
      ((provider st obj pfx).2.g).filter (pEdge (VCARD "adr")) =
        st.g.filter (pEdge (VCARD "adr"))) ∧
    ((∀ s ∈ ["type", "number", "preferred_p"],
        obj.attr (pfx ++ "_tel_1" ++ "_" ++ s) = "") →
      (∀ s ∈ ["type", "number", "preferred_p"],
        obj.attr (pfx ++ "_tel_2" ++ "_" ++ s) = "") →
      ((provider st obj pfx).2.g).filter (pEdge (VCARD "tel")) =
        st.g.filter (pEdge (VCARD "tel"))) := by
  have hf8 := (obj_fields_by_name_spec obj pfx
    ["dea_number", "ethnicity", "npi_number", "preferred_language", "race", "bday", "email",
     "gender"] (by decide)).2 hsome
  have hA : ∀ (y : String) (st' : PG) (p' : String),
      ((address st' obj p').2.g).filter (pEdge (SP y)) = st'.g.filter (pEdge (SP y)) :=
    fun y st' p' => address_pEdge st' obj p' (SP y) (rdftype_ne_sp y) (vcard_ne_sp _ _)
      (vcard_ne_sp _ _) (vcard_ne_sp _ _) (vcard_ne_sp _ _) (vcard_ne_sp _ _)
  have hT : ∀ (y : String) (st' : PG) (p' : String),
      ((telephone st' obj p').2.g).filter (pEdge (SP y)) = st'.g.filter (pEdge (SP y)) :=
    fun y st' p' => telephone_pEdge st' obj p' (SP y) (rdftype_ne_sp y) (vcard_ne_sp _ _)
  have hN : ∀ (y : String) (st' : PG) (p' : String),
      ((name st' obj p').2.g).filter (pEdge (SP y)) = st'.g.filter (pEdge (SP y)) :=
    fun y st' p' => name_pEdge st' obj p' (SP y) (rdftype_ne_sp y) (vcard_ne_sp _ _)
      (vcard_ne_sp _ _) (vcard_ne_sp _ _) (vcard_ne_sp _ _)
  have hAv : ∀ (y : String), ¬ "street-address" = y → ¬ "locality" = y → ¬ "region" = y →
      ¬ "postal-code" = y → ¬ "country" = y → ∀ (st' : PG) (p' : String),
      ((address st' obj p').2.g).filter (pEdge (VCARD y)) = st'.g.filter (pEdge (VCARD y)) :=
    fun y n1 n2 n3 n4 n5 st' p' => address_pEdge st' obj p' (VCARD y) (rdftype_ne_vcard y)
      (fun h => n1 (vcard_inj.mp h)) (fun h => n2 (vcard_inj.mp h))
      (fun h => n3 (vcard_inj.mp h)) (fun h => n4 (vcard_inj.mp h))
      (fun h => n5 (vcard_inj.mp h))
  have hTv : ∀ (y : String), ¬ "value" = y → ∀ (st' : PG) (p' : String),
      ((telephone st' obj p').2.g).filter (pEdge (VCARD y)) = st'.g.filter (pEdge (VCARD y)) :=
    fun y n1 st' p' => telephone_pEdge st' obj p' (VCARD y) (rdftype_ne_vcard y)
      (fun h => n1 (vcard_inj.mp h))
  have hNv : ∀ (y : String), ¬ "family-name" = y → ¬ "given-name" = y →
      ¬ "honorific-prefix" = y → ¬ "honorific-suffix" = y → ∀ (st' : PG) (p' : String),
      ((name st' obj p').2.g).filter (pEdge (VCARD y)) = st'.g.filter (pEdge (VCARD y)) :=
    fun y n1 n2 n3 n4 st' p' => name_pEdge st' obj p' (VCARD y) (rdftype_ne_vcard y)
      (fun h => n1 (vcard_inj.mp h)) (fun h => n2 (vcard_inj.mp h))
      (fun h => n3 (vcard_inj.mp h)) (fun h => n4 (vcard_inj.mp h))
  have hAf : ∀ (st' : PG) (p' : String),
      ((address st' obj p').2.g).filter (pEdge (FOAF "gender")) =
        st'.g.filter (pEdge (FOAF "gender")) :=
    fun st' p' => address_pEdge st' obj p' (FOAF "gender") (rdftype_ne_foaf _)
      (vcard_ne_foaf _ _) (vcard_ne_foaf _ _) (vcard_ne_foaf _ _) (vcard_ne_foaf _ _)
      (vcard_ne_foaf _ _)
  have hTf : ∀ (st' : PG) (p' : String),
      ((telephone st' obj p').2.g).filter (pEdge (FOAF "gender")) =
        st'.g.filter (pEdge (FOAF "gender")) :=
    fun st' p' => telephone_pEdge st' obj p' (FOAF "gender") (rdftype_ne_foaf _)
      (vcard_ne_foaf _ _)
  have hNf : ∀ (st' : PG) (p' : String),
      ((name st' obj p').2.g).filter (pEdge (FOAF "gender")) =
        st'.g.filter (pEdge (FOAF "gender")) :=
    fun st' p' => name_pEdge st' obj p' (FOAF "gender") (rdftype_ne_foaf _)
      (vcard_ne_foaf _ _) (vcard_ne_foaf _ _) (vcard_ne_foaf _ _) (vcard_ne_foaf _ _)
  have hAb := hAv "bday" (by decide) (by decide) (by decide) (by decide) (by decide)
  have hAe := hAv "email" (by decide) (by decide) (by decide) (by decide) (by decide)
  have hAadr := hAv "adr" (by decide) (by decide) (by decide) (by decide) (by decide)
  have hAtel := hAv "tel" (by decide) (by decide) (by decide) (by decide) (by decide)
  have hTb := hTv "bday" (by decide)
  have hTe := hTv "email" (by decide)
  have hTadr := hTv "adr" (by decide)
  have hTtel := hTv "tel" (by decide)
  have hNb := hNv "bday" (by decide) (by decide) (by decide) (by decide)
  have hNe := hNv "email" (by decide) (by decide) (by decide) (by decide)
  have hNadr := hNv "adr" (by decide) (by decide) (by decide) (by decide)
  have hNtel := hNv "tel" (by decide) (by decide) (by decide) (by decide)
  unfold provider
  rw [hf8]
  dsimp only
  refine ⟨rfl, ?_, ?_, ?_, ?_, ?_, ?_, ?_, ?_, ?_, ?_, ?_, ?_⟩
  · refine ⟨toNode (name ((PG.newBNode st).2.add
        ⟨.bnode st.ctr, RDFtype, SP "Provider"⟩) obj (pfx ++ "_name")).1, ?_⟩
    refine mem_of_mono ?_ (prefix_attachOpt _ _ _ (telephone_mono _ _ _))
    refine mem_of_mono ?_ (prefix_attachOpt _ _ _ (telephone_mono _ _ _))
    refine mem_of_mono ?_ (prefix_attachOpt _ _ _ (address_mono _ _ _))
    refine mem_of_mono ?_ (prefix_stateIte _ _ _)
    refine mem_of_mono ?_ (prefix_stateIte _ _ _)
    refine mem_of_mono ?_ (prefix_stateIte _ _ _)
    refine mem_of_mono ?_ (prefix_stateIte _ _ _)
    refine mem_of_mono ?_ (prefix_stateIte _ _ _)
    refine mem_of_mono ?_ (prefix_stateIte _ _ _)
    refine mem_of_mono ?_ (prefix_stateIte _ _ _)
    refine mem_of_mono ?_ (prefix_stateIte _ _ _)
    exact List.mem_append_right _ (List.mem_singleton_self _)
  · intro hn
    have hnm := (obj_fields_by_name_spec obj (pfx ++ "_name")
      ["family", "given", "prefix", "suffix"] (by decide)).1.mpr hn
    have hname : ∀ st' : PG, name st' obj (pfx ++ "_name") = (none, st') :=
      fun st' => name_none st' obj _ hnm
    simp only [hname]
    refine mem_of_mono ?_ (prefix_attachOpt _ _ _ (telephone_mono _ _ _))
    refine mem_of_mono ?_ (prefix_attachOpt _ _ _ (telephone_mono _ _ _))
    refine mem_of_mono ?_ (prefix_attachOpt _ _ _ (address_mono _ _ _))
    refine mem_of_mono ?_ (prefix_stateIte _ _ _)
    refine mem_of_mono ?_ (prefix_stateIte _ _ _)
    refine mem_of_mono ?_ (prefix_stateIte _ _ _)
    refine mem_of_mono ?_ (prefix_stateIte _ _ _)
    refine mem_of_mono ?_ (prefix_stateIte _ _ _)
    refine mem_of_mono ?_ (prefix_stateIte _ _ _)
    refine mem_of_mono ?_ (prefix_stateIte _ _ _)
    refine mem_of_mono ?_ (prefix_stateIte _ _ _)
    exact List.mem_append_right _ (List.mem_singleton_self _)
  · simp [dget, PG.add, PG.ite_g, PG.newBNode, filter_ite_list, List.filter_append,
      List.filter_cons, pEdge, filter_attachOpt_p, hA, hT, hN, sp_inj, rdftype_ne_sp,
      vcard_ne_sp, foaf_ne_sp]
    split <;> simp
  · simp [dget, PG.add, PG.ite_g, PG.newBNode, filter_ite_list, List.filter_append,
      List.filter_cons, pEdge, filter_attachOpt_p, hA, hT, hN, sp_inj, rdftype_ne_sp,
      vcard_ne_sp, foaf_ne_sp]
    split <;> simp
  · simp [dget, PG.add, PG.ite_g, PG.newBNode, filter_ite_list, List.filter_append,
      List.filter_cons, pEdge, filter_attachOpt_p, hA, hT, hN, sp_inj, rdftype_ne_sp,
      vcard_ne_sp, foaf_ne_sp]
    split <;> simp
  · simp [dget, PG.add, PG.ite_g, PG.newBNode, filter_ite_list, List.filter_append,
      List.filter_cons, pEdge, filter_attachOpt_p, hA, hT, hN, sp_inj, rdftype_ne_sp,
      vcard_ne_sp, foaf_ne_sp]
    split <;> simp
  · simp [dget, PG.add, PG.ite_g, PG.newBNode, filter_ite_list, List.filter_append,
      List.filter_cons, pEdge, filter_attachOpt_p, hA, hT, hN, sp_inj, rdftype_ne_sp,
      vcard_ne_sp, foaf_ne_sp]
    split <;> simp
  · simp [dget, PG.add, PG.ite_g, PG.newBNode, filter_ite_list, List.filter_append,
      List.filter_cons, pEdge, filter_attachOpt_p, hAb, hTb, hNb, vcard_inj,
      sp_ne_vcard, rdftype_ne_vcard, foaf_ne_vcard]
    split <;> simp
  · simp [dget, PG.add, PG.ite_g, PG.newBNode, filter_ite_list, List.filter_append,
      List.filter_cons, pEdge, filter_attachOpt_p, hAe, hTe, hNe, vcard_inj,
      sp_ne_vcard, rdftype_ne_vcard, foaf_ne_vcard]
    split <;> simp
  · simp [dget, PG.add, PG.ite_g, PG.newBNode, filter_ite_list, List.filter_append,
      List.filter_cons, pEdge, filter_attachOpt_p, hAf, hTf, hNf, sp_ne_foaf,
      rdftype_ne_foaf, vcard_ne_foaf]
    split <;> simp
  · intro hadr
    have hadrnm := (obj_fields_by_name_spec obj (pfx ++ "_adr")
      ["country", "city", "postalcode", "region", "street"] (by decide)).1.mpr hadr
    have haddr : ∀ st' : PG, address st' obj (pfx ++ "_adr") = (none, st') :=
      fun st' => address_none st' obj _ hadrnm
    simp [dget, haddr, PG.add, PG.ite_g, PG.newBNode, attachOpt_none, filter_ite_list,
      List.filter_append, List.filter_cons, pEdge, filter_attachOpt_p, hTadr, hNadr,
      vcard_inj, sp_ne_vcard, rdftype_ne_vcard, foaf_ne_vcard]
  · intro ht1 ht2
    have ht1nm := (obj_fields_by_name_spec obj (pfx ++ "_tel_1")
      ["type", "number", "preferred_p"] (by decide)).1.mpr ht1
    have ht2nm := (obj_fields_by_name_spec obj (pfx ++ "_tel_2")
      ["type", "number", "preferred_p"] (by decide)).1.mpr ht2
    have htel1 : ∀ st' : PG, telephone st' obj (pfx ++ "_tel_1") = (none, st') :=
      fun st' => telephone_none st' obj _ ht1nm
    have htel2 : ∀ st' : PG, telephone st' obj (pfx ++ "_tel_2") = (none, st') :=
      fun st' => telephone_none st' obj _ ht2nm
    simp [dget, htel1, htel2, PG.add, PG.ite_g, PG.newBNode, attachOpt_none, filter_ite_list,
      List.filter_append, List.filter_cons, pEdge, filter_attachOpt_p, hAtel, hNtel,
      vcard_inj, sp_ne_vcard, rdftype_ne_vcard, foaf_ne_vcard]

/-- Witness for C5: a record whose only truthy provider field is the DEA
number and whose name / address / telephone field groups are all empty: the
provider node is built, the `v:n` edge points at null, the DEA edge is
attached, and no address or telephone edge is attached. -/
theorem C5_provider_name_quirk_witness :
    (provider (PatientGraph.init "r") wProvObj "prov").1 =
      some (.bnode (PatientGraph.init "r").ctr) ∧
    Stmt.mk (.bnode (PatientGraph.init "r").ctr) (VCARD "n") Node.null ∈
      (provider (PatientGraph.init "r") wProvObj "prov").2.g ∧
    ((provider (PatientGraph.init "r") wProvObj "prov").2.g).filter (pEdge (SP "deaNumber")) =
      (PatientGraph.init "r").g.filter (pEdge (SP "deaNumber")) ++
        (if wProvObj.attr ("prov" ++ "_" ++ "dea_number") ≠ "" then
          [⟨.bnode (PatientGraph.init "r").ctr, SP "deaNumber",
            .literal (wProvObj.attr ("prov" ++ "_" ++ "dea_number"))⟩]
         else []) ∧
    ((provider (PatientGraph.init "r") wProvObj "prov").2.g).filter (pEdge (VCARD "adr")) =
      (PatientGraph.init "r").g.filter (pEdge (VCARD "adr")) ∧
    ((provider (PatientGraph.init "r") wProvObj "prov").2.g).filter (pEdge (VCARD "tel")) =
      (PatientGraph.init "r").g.filter (pEdge (VCARD "tel")) := by
  have h := C5_provider_name_quirk (PatientGraph.init "r") wProvObj "prov" (by decide)
  exact ⟨h.1, h.2.2.1 (by decide), h.2.2.2.1,
    h.2.2.2.2.2.2.2.2.2.2.2.1 (by decide),
    h.2.2.2.2.2.2.2.2.2.2.2.2 (by decide) (by decide)⟩

theorem prefix_foldl {α : Type} (f : PG → α → PG) (hf : ∀ st a, st.g <+: (f st a).g) :
    ∀ (l : List α) (st : PG), st.g <+: (l.foldl f st).g := by
  intro l
  induction l with
  | nil => intro st; exact List.prefix_rfl
  | cons a l ih => intro st; exact (hf st a).trans (ih _)

theorem addMedList_mono (st : PG) (meds : List Med) (ff : Med → List Fill) :
    st.g <+: (addMedList st meds ff).g := by
  rcases meds with _ | ⟨m, ms⟩
  · exact List.prefix_rfl
  · simp only [addMedList]
    refine prefix_foldl _ ?_ _ _
    intro st m
    refine List.IsPrefix.trans ?_
      (prefix_foldl _ (fun s f => addFill_mono s f _ true) _ _)
    refine List.IsPrefix.trans ?_ (addStatement_mono _ _)
    exact medication_mono _ _

theorem addFillList_go_mono (am : List (String × Node)) (fs : List Fill) (st : PG) :
    st.g <+: (addFillList_go st am fs).2.g := by
  induction fs generalizing st am with
  | nil => exact List.prefix_rfl
  | cons f fs ih =>
    simp only [addFillList_go]
    rcases hm : f.medication with _ | med
    · exact List.prefix_rfl
    · dsimp only
      split
      · exact (addFill_mono _ _ _ false).trans (ih _ _)
      · refine List.IsPrefix.trans ?_ (ih _ _)
        refine List.IsPrefix.trans ?_ (addFill_mono _ _ _ false)
        refine List.IsPrefix.trans ?_ (addStatement_mono _ _)
        exact medication_mono _ _

theorem addFillList_mono (st : PG) (fills : List Fill) :
    st.g <+: (addFillList st fills).2.g := by
  rcases fills with _ | ⟨f, fs⟩
  · exact List.prefix_rfl
  · exact addFillList_go_mono [] (f :: fs) st

theorem addProblemList_mono (st : PG) (ps : List Problem) :
    st.g <+: (addProblemList st ps).g := by
  refine prefix_foldl _ ?_ _ _
  intro st p
  refine List.IsPrefix.trans ?_ (addStatement_mono _ _)
  refine List.IsPrefix.trans ?_ (prefix_add _ _)
  refine List.IsPrefix.trans ?_ (codedValue_mono _ _ _ _ _ _)
  refine List.IsPrefix.trans ?_ (prefix_stateIte _ _ _)
  refine List.IsPrefix.trans ?_ (prefix_stateIte _ _ _)
  refine List.IsPrefix.trans ?_ (prefix_add _ _)
  refine List.IsPrefix.trans ?_ (prefix_add _ _)
  exact List.prefix_rfl

theorem addDemographics_mono (st : PG) (record : String) :
    st.g <+: (addDemographics st record).2.g :=
  addStatement_mono _ _

theorem addVitalSigns_mono (st : PG) : st.g <+: (addVitalSigns st).2.g := by
  unfold addVitalSigns
  split <;> exact List.prefix_rfl

theorem addImmunizations_mono (st : PG) : st.g <+: (addImmunizations st).2.g := by
  unfold addImmunizations
  split <;> exact List.prefix_rfl

theorem addLabResults_mono (st : PG) : st.g <+: (addLabResults st).2.g := by
  unfold addLabResults
  split <;> exact List.prefix_rfl

set_option maxHeartbeats 2000000 in
theorem addLabResults_lab_mono (st : PG) (lab : Lab) :
    st.g <+: (addLabResults_lab st lab).g := by
  unfold addLabResults_lab
  refine List.IsPrefix.trans ?_ (addStatement_mono _ _)
  refine List.IsPrefix.trans ?_ (prefix_add _ _)
  refine List.IsPrefix.trans ?_ (prefix_add _ _)
  refine List.IsPrefix.trans ?_ (prefix_add _ _)
  refine List.IsPrefix.trans ?_ (prefix_add _ _)
  refine prefix_ite _ _ _ _ ?_ ?_
  · refine List.IsPrefix.trans ?_ (prefix_add _ _)
    refine List.IsPrefix.trans ?_ (prefix_add _ _)
    refine List.IsPrefix.trans ?_ (prefix_add _ _)
    refine prefix_ite _ _ _ _ ?_ ?_
    · refine List.IsPrefix.trans ?_ (prefix_add _ _)
      refine List.IsPrefix.trans ?_ (prefix_add _ _)
      refine List.IsPrefix.trans ?_ (prefix_add _ _)
      refine List.IsPrefix.trans ?_ (valueAndUnit_mono _ _ _)
      refine List.IsPrefix.trans ?_ (prefix_add _ _)
      refine List.IsPrefix.trans ?_ (valueAndUnit_mono _ _ _)
      refine List.IsPrefix.trans ?_ (prefix_add _ _)
      refine List.IsPrefix.trans ?_ (prefix_add _ _)
      refine List.IsPrefix.trans ?_ (valueAndUnit_mono _ _ _)
      refine List.IsPrefix.trans ?_ (prefix_add _ _)
      refine List.IsPrefix.trans ?_ (prefix_add _ _)
      refine List.IsPrefix.trans ?_ (codedValue_mono _ _ _ _ _ _)
      refine List.IsPrefix.trans ?_ (prefix_add _ _)
      exact List.prefix_rfl
    · refine List.IsPrefix.trans ?_ (prefix_add _ _)
      refine List.IsPrefix.trans ?_ (codedValue_mono _ _ _ _ _ _)
      refine List.IsPrefix.trans ?_ (prefix_add _ _)
      exact List.prefix_rfl
  · refine prefix_ite _ _ _ _ ?_ ?_
    · refine List.IsPrefix.trans ?_ (prefix_add _ _)
      refine List.IsPrefix.trans ?_ (prefix_add _ _)
      refine List.IsPrefix.trans ?_ (prefix_add _ _)
      refine List.IsPrefix.trans ?_ (valueAndUnit_mono _ _ _)
      refine List.IsPrefix.trans ?_ (prefix_add _ _)
      refine List.IsPrefix.trans ?_ (valueAndUnit_mono _ _ _)
      refine List.IsPrefix.trans ?_ (prefix_add _ _)
      refine List.IsPrefix.trans ?_ (prefix_add _ _)
      refine List.IsPrefix.trans ?_ (valueAndUnit_mono _ _ _)
      refine List.IsPrefix.trans ?_ (prefix_add _ _)
      refine List.IsPrefix.trans ?_ (prefix_add _ _)
      refine List.IsPrefix.trans ?_ (codedValue_mono _ _ _ _ _ _)
      refine List.IsPrefix.trans ?_ (prefix_add _ _)
      exact List.prefix_rfl
    · refine List.IsPrefix.trans ?_ (prefix_add _ _)
      refine List.IsPrefix.trans ?_ (codedValue_mono _ _ _ _ _ _)
      refine List.IsPrefix.trans ?_ (prefix_add _ _)
      exact List.prefix_rfl

theorem addAllergies_drugBlock_mono (st : PG) :
    st.g <+: (addAllergies_drugBlock st).g := by
  unfold addAllergies_drugBlock
  refine List.IsPrefix.trans ?_ (addStatement_mono _ _)
  refine List.IsPrefix.trans ?_ (prefix_add _ _)
  refine List.IsPrefix.trans ?_ (codedValue_mono _ _ _ _ _ _)
  refine List.IsPrefix.trans ?_ (prefix_add _ _)
  refine List.IsPrefix.trans ?_ (codedValue_mono _ _ _ _ _ _)
  refine List.IsPrefix.trans ?_ (prefix_add _ _)
  refine List.IsPrefix.trans ?_ (codedValue_mono _ _ _ _ _ _)
  refine List.IsPrefix.trans ?_ (prefix_add _ _)
  refine List.IsPrefix.trans ?_ (codedValue_mono _ _ _ _ _ _)
  refine List.IsPrefix.trans ?_ (prefix_add _ _)
  exact List.prefix_rfl

theorem addAllergies_foodBlock_mono (st : PG) :
    st.g <+: (addAllergies_foodBlock st).g := by
  unfold addAllergies_foodBlock
  refine List.IsPrefix.trans ?_ (addStatement_mono _ _)
  refine List.IsPrefix.trans ?_ (prefix_add _ _)
  refine List.IsPrefix.trans ?_ (codedValue_mono _ _ _ _ _ _)
  refine List.IsPrefix.trans ?_ (prefix_add _ _)
  refine List.IsPrefix.trans ?_ (codedValue_mono _ _ _ _ _ _)
  refine List.IsPrefix.trans ?_ (prefix_add _ _)
  refine List.IsPrefix.trans ?_ (codedValue_mono _ _ _ _ _ _)
  refine List.IsPrefix.trans ?_ (prefix_add _ _)
  refine List.IsPrefix.trans ?_ (codedValue_mono _ _ _ _ _ _)
  refine List.IsPrefix.trans ?_ (prefix_add _ _)
  exact List.prefix_rfl

theorem addAllergies_mono (st : PG) : st.g <+: (addAllergies st).2.g := by
  unfold addAllergies
  split
  · exact List.prefix_rfl
  · split
    · exact List.prefix_rfl
    · split
      · refine List.IsPrefix.trans ?_ (addStatement_mono _ _)
        refine List.IsPrefix.trans ?_ (prefix_add _ _)
        refine List.IsPrefix.trans ?_ (codedValue_mono _ _ _ _ _ _)
        refine List.IsPrefix.trans ?_ (prefix_add _ _)
        exact List.prefix_rfl
      · split
        · exact (addAllergies_drugBlock_mono st).trans (addAllergies_foodBlock_mono _)
        · exact addAllergies_drugBlock_mono st

/-- C8: every modeled operation of `PatientGraph` — every helper builder,
every add-method (including those that raise, which leave the partial state
they reached), and `toRDF` — leaves the pre-call statement list as a prefix
of the post-call list (`<+:`).  A prefix extension never removes or
rewrites a statement, so any statement in the graph before a call is in the
graph after it: the statement set is append-only within a build session. -/
theorem C8_append_only (st : PG) (n cc mn : Node) (u ti sy idf v un : String)
    (obj : Obj) (pfx : String) (m : Option Med) (fill : Fill) (muo : Bool)
    (meds : List Med) (ff : Med → List Fill) (fills : List Fill)
    (probs : List Problem) (lab : Lab) (record fmt : String) :
    st.g <+: (addStatement st n).g ∧
    st.g <+: (codedValue st cc u ti sy idf).2.g ∧
    st.g <+: (valueAndUnit st v un).2.g ∧
    st.g <+: (address st obj pfx).2.g ∧
    st.g <+: (telephone st obj pfx).2.g ∧
    st.g <+: (name st obj pfx).2.g ∧
    st.g <+: (pharmacy st obj pfx).2.g ∧
    st.g <+: (provider st obj pfx).2.g ∧
    st.g <+: (medication st m).2.g ∧
    st.g <+: (addFill st fill mn muo).g ∧
    st.g <+: (addMedList st meds ff).g ∧
    st.g <+: (addFillList st fills).2.g ∧
    st.g <+: (addProblemList st probs).g ∧
    st.g <+: (addDemographics st record).2.g ∧
    st.g <+: (addVitalSigns st).2.g ∧
    st.g <+: (addImmunizations st).2.g ∧
    st.g <+: (addLabResults st).2.g ∧
    st.g <+: (addLabResults_lab st lab).g ∧
    st.g <+: (addAllergies st).2.g ∧
    st.g <+: (toRDF st fmt).2.g :=
  ⟨addStatement_mono st n, codedValue_mono st cc u ti sy idf,
   valueAndUnit_mono st v un, address_mono st obj pfx,
   telephone_mono st obj pfx, name_mono st obj pfx,
   pharmacy_mono st obj pfx, provider_mono st obj pfx,
   medication_mono st m, addFill_mono st fill mn muo,
   addMedList_mono st meds ff, addFillList_mono st fills,
   addProblemList_mono st probs, addDemographics_mono st record,
   addVitalSigns_mono st, addImmunizations_mono st,
   addLabResults_mono st, addLabResults_lab_mono st lab,
   addAllergies_mono st, List.prefix_rfl⟩
